import Mathlib

/-!
Collisionable.cpp: collision bodies and the per-frame collision pass

Shallow embedding of `src/Collisionable.cpp`.

* Floating point values are exact rationals.
* Pointers to physics bodies are handles (`Nat`) into the table of the world;
  a NULL pointer is `none`.  Dereferencing NULL or a handle that is not in the
  table is undefined behaviour in the source and is `none` here.
* Entities are identified by a number (`this`); the table `entities` gives the
  fields of every entity.
* What the file calls but does not define (the physics engine, the virtual
  `collision` hook, the reference type `P`) is a field of `Env`.
-/

namespace SeriousProton

/-! ## Vectors and the unit conversion -/

/-- Display-space vector, `sf::Vector2f`. -/
structure Vector2f where
  x : ℚ
  y : ℚ
deriving DecidableEq

/-- Simulation-space vector, `b2Vec2`. -/
structure b2Vec2 where
  x : ℚ
  y : ℚ
deriving DecidableEq

/-- The constant `#define BOX2D_SCALE 20.0f`. -/
def BOX2D_SCALE : ℚ := 20

/-- The value of the C constant `M_PI` (the double nearest to pi), as an exact rational. -/
def M_PI : ℚ := 884279719003555 / 281474976710656

/-- Function `b2v`: simulation units to display units. -/
def b2v (v : b2Vec2) : Vector2f :=
  ⟨v.x * BOX2D_SCALE, v.y * BOX2D_SCALE⟩

/-- Function `v2b`: display units to simulation units. -/
def v2b (v : Vector2f) : b2Vec2 :=
  ⟨v.x / BOX2D_SCALE, v.y / BOX2D_SCALE⟩

/-! ## The physics engine as far as this file uses it -/

/-- Body kinds of the engine. -/
inductive b2BodyType where
  | b2_staticBody
  | b2_kinematicBody
  | b2_dynamicBody
deriving DecidableEq

/-- Shapes of the engine, by their type tag. -/
inductive b2Shape where
  | e_circle (m_radius : ℚ)
  | e_edge
  | e_polygon (m_vertices : List b2Vec2)
  | e_chain
deriving DecidableEq

/-- A fixture (and the `b2FixtureDef` it is made from). -/
structure b2Fixture where
  shape : b2Shape
  density : ℚ
  friction : ℚ
  isSensor : Bool
deriving DecidableEq

/-- Modelled from the spec: the simulation body of the physics engine, which is not part
of this file.  It stores what `b2BodyDef` and the setters give it; its fixture list has
the newest fixture first. -/
structure b2Body where
  m_type : b2BodyType
  m_userData : Nat
  allowSleep : Bool
  position : b2Vec2
  angle : ℚ
  linearVelocity : b2Vec2
  angularVelocity : ℚ
  fixtureList : List b2Fixture
deriving DecidableEq

/-- A contact of the engine as the collision pass reads it: `IsTouching()`, `IsEnabled()`
and, for each of the two fixtures, `GetFixtureX()->GetBody()->GetUserData()`. -/
structure b2Contact where
  touching : Bool
  enabled : Bool
  userDataA : Nat
  userDataB : Nat
deriving DecidableEq

/-- Modelled from the spec: the single simulation instance (`CollisionManager::world`);
a table of bodies by handle, the next free handle, and the live contact list. -/
structure b2World where
  bodies : Nat → Option b2Body
  nextBody : Nat
  contactList : List b2Contact

/-- The fields of a `Collisionable` (with the destroyed flag of its base class, read by
`isDestroyed()`). -/
structure Collisionable where
  enablePhysics : Bool
  staticPhysics : Bool
  body : Option Nat
  destroyed : Bool
deriving DecidableEq

/-- Everything the file reads and writes: the global world and the entities. -/
structure GameState where
  world : b2World
  entities : Nat → Collisionable

/-- What the file uses and does not define. -/
structure Env where
  /-- The constant `b2_maxPolygonVertices` of the engine. -/
  b2_maxPolygonVertices : Nat
  /-- Call `world->Step(delta, velocityIterations, positionIterations)`. -/
  Step : b2World → ℚ → Nat → Nat → b2World
  /-- The virtual hook `receiver->collision(target)` of the concrete entity classes. -/
  collision : Nat → Nat → GameState → GameState
  /-- Whether a `P<Collisionable>` that was set to the given entity reads as non-null. -/
  pvalid : GameState → Nat → Bool
  /-- Call `b2PolygonShape::Set(points, len)`: the resulting vertices, `none` when the
  engine reports the polygon as not valid. -/
  polygonSet : List b2Vec2 → Option (List b2Vec2)
  /-- Call `body->GetLocalPoint(p)`. -/
  GetLocalPoint : b2Body → b2Vec2 → b2Vec2
  /-- Call `body->GetWorldPoint(p)`. -/
  GetWorldPoint : b2Body → b2Vec2 → b2Vec2
  /-- Call `body->ApplyLinearImpulse(impulse, point, wake)`. -/
  ApplyLinearImpulse : b2Body → b2Vec2 → b2Vec2 → Bool → b2Body
  /-- The functions `sin` and `cos` of the C library. -/
  sin : ℚ → ℚ
  cos : ℚ → ℚ

/-- Write one body of the table. -/
def b2World.setBody (w : b2World) (h : Nat) (b : b2Body) : b2World :=
  { w with bodies := fun k => if k = h then some b else w.bodies k }

/-- Modelled from the spec: `b2World::CreateBody(&bodyDef)`; a new body at rest at the
origin, without fixtures, under a new handle. -/
def b2World.CreateBody (w : b2World) (type : b2BodyType) (userData : Nat)
    (allowSleep : Bool) : Nat × b2World :=
  (w.nextBody,
    { w with
      bodies := fun k =>
        if k = w.nextBody then
          some { m_type := type, m_userData := userData, allowSleep := allowSleep,
                 position := ⟨0, 0⟩, angle := 0, linearVelocity := ⟨0, 0⟩,
                 angularVelocity := 0, fixtureList := [] }
        else w.bodies k
      nextBody := w.nextBody + 1 })

/-- Modelled from the spec: `b2World::DestroyBody(body)`; the body leaves the table and
its contacts leave the contact list.  Undefined for a pointer that is no body. -/
def b2World.DestroyBody (w : b2World) (h : Nat) : Option b2World :=
  match w.bodies h with
  | none => none
  | some b =>
    some { w with
      bodies := fun k => if k = h then none else w.bodies k
      contactList := w.contactList.filter
        (fun c => c.userDataA != b.m_userData && c.userDataB != b.m_userData) }

/-- Modelled from the spec: `body->CreateFixture(&def)`. -/
def b2Body.CreateFixture (b : b2Body) (d : b2Fixture) : b2Body :=
  { b with fixtureList := d :: b.fixtureList }

/-- The loop `while (body->GetFixtureList()) body->DestroyFixture(body->GetFixtureList())`
on the fixture list. -/
def destroyFixtures : List b2Fixture → List b2Fixture
  | [] => []
  | _ :: rest => destroyFixtures rest

/-- Modelled from the spec: `body->SetTransform(position, angle)`. -/
def b2Body.SetTransform (b : b2Body) (p : b2Vec2) (a : ℚ) : b2Body :=
  { b with position := p, angle := a }

/-- Modelled from the spec: `body->SetLinearVelocity(v)`. -/
def b2Body.SetLinearVelocity (b : b2Body) (v : b2Vec2) : b2Body :=
  { b with linearVelocity := v }

/-- Modelled from the spec: `body->SetAngularVelocity(w)`. -/
def b2Body.SetAngularVelocity (b : b2Body) (w : ℚ) : b2Body :=
  { b with angularVelocity := w }

/-- Modelled from the spec: `body->SetType(type)`. -/
def b2Body.SetType (b : b2Body) (t : b2BodyType) : b2Body :=
  { b with m_type := t }

/-- Modelled from the spec: `fixture->SetSensor(flag)`. -/
def b2Fixture.SetSensor (f : b2Fixture) (flag : Bool) : b2Fixture :=
  { f with isSensor := flag }

/-- Modelled from the spec: `b2PolygonShape::SetAsBox(hx, hy, center, 0)`, the box with
the given half extents around `center`, not rotated. -/
def SetAsBox (hx hy : ℚ) (center : b2Vec2) : b2Shape :=
  b2Shape.e_polygon
    [⟨center.x - hx, center.y - hy⟩, ⟨center.x + hx, center.y - hy⟩,
     ⟨center.x + hx, center.y + hy⟩, ⟨center.x - hx, center.y + hy⟩]

/-- Write the fields of one entity. -/
def GameState.setEntity (s : GameState) (self : Nat) (e : Collisionable) : GameState :=
  { s with entities := fun k => if k = self then e else s.entities k }

/-- Modelled from the spec: `destroy()` of the base class marks the entity as destroyed
and leaves its body alone. -/
def destroy (s : GameState) (self : Nat) : GameState :=
  s.setEntity self { s.entities self with destroyed := true }

/-! ## Collisionable: building the body -/

/-- Method `Collisionable::createBody(shape)`. -/
def createBody (s : GameState) (self : Nat) (shape : b2Shape) : Option GameState :=
  let shapeDef : b2Fixture :=
    { shape := shape, density := 1, friction := 1 / 10,
      isSensor := !(s.entities self).enablePhysics }
  match (s.entities self).body with
  | some h =>
    match s.world.bodies h with
    | none => none
    | some b =>
      let b1 : b2Body := { b with fixtureList := destroyFixtures b.fixtureList }
      some { s with world := s.world.setBody h (b1.CreateFixture shapeDef) }
  | none =>
    let type :=
      if (s.entities self).staticPhysics then b2BodyType.b2_kinematicBody
      else b2BodyType.b2_dynamicBody
    let r := s.world.CreateBody type self false
    let s0 : GameState := { world := r.2, entities := s.entities }
    let s1 : GameState := s0.setEntity self { s.entities self with body := some r.1 }
    match s1.world.bodies r.1 with
    | none => none
    | some b => some { s1 with world := s1.world.setBody r.1 (b.CreateFixture shapeDef) }

/-- Method `Collisionable::setCollisionRadius(radius)`. -/
def setCollisionRadius (s : GameState) (self : Nat) (radius : ℚ) : Option GameState :=
  createBody s self (b2Shape.e_circle (radius / BOX2D_SCALE))

/-- Method `Collisionable::setCollisionBox(boxSize, boxOrigin)`. -/
def setCollisionBox (s : GameState) (self : Nat) (boxSize boxOrigin : Vector2f) :
    Option GameState :=
  createBody s self
    (SetAsBox (boxSize.x / 2 / BOX2D_SCALE) (boxSize.y / 2 / BOX2D_SCALE) (v2b boxOrigin))

/-- Range of `unsigned int`. -/
def UINT_RANGE : Nat := 2 ^ 32

/-- The vertex array `points[0 .. len-1]` filled by one pass of the loop of
`setCollisionShape`: the anchor `shapeList[0]`, then `shapeList[n + offset]` for
`n < len - 1` (the index is an `unsigned int` sum). -/
def windowPoints (shapeList : List Vector2f) (offset len : Nat) : List b2Vec2 :=
  v2b (shapeList.getD 0 ⟨0, 0⟩) ::
    (List.range (len - 1)).map
      (fun n => v2b (shapeList.getD ((n + offset) % UINT_RANGE) ⟨0, 0⟩))

/-- The length `len` computed at the top of one pass of the loop of `setCollisionShape`. -/
def windowLen (env : Env) (size offset : Nat) : Nat :=
  if env.b2_maxPolygonVertices % UINT_RANGE > size - offset + 1 then
    (size - offset + 1) % UINT_RANGE
  else env.b2_maxPolygonVertices % UINT_RANGE

/-- One pass of the loop of `setCollisionShape` after the test of `len` (lines 163 to
190): fill `points`, set the polygon (or the fallback box, marking the entity destroyed),
then create the body on the first pass and add a fixture on the later ones. -/
def buildWindow (env : Env) (shapeList : List Vector2f) (self : Nat) (offset len : Nat)
    (s : GameState) : Option GameState :=
  let points := windowPoints shapeList offset len
  let valid := env.polygonSet points
  let shape : b2Shape :=
    match valid with
    | some vs => b2Shape.e_polygon vs
    | none => SetAsBox (1 / BOX2D_SCALE) (1 / BOX2D_SCALE) (points.getD 0 ⟨0, 0⟩)
  let s1 : GameState :=
    match valid with
    | some _ => s
    | none => destroy s self
  if offset = 1 then createBody s1 self shape
  else
    match (s1.entities self).body with
    | none => none
    | some h =>
      match s1.world.bodies h with
      | none => none
      | some b =>
        let shapeDef : b2Fixture :=
          { shape := shape, density := 1, friction := 1 / 10,
            isSensor := !(s1.entities self).enablePhysics }
        some { s1 with world := s1.world.setBody h (b.CreateFixture shapeDef) }

/-- The loop of `Collisionable::setCollisionShape`, started at `offset`.  The first
argument bounds the number of passes (`none` when it is used up, or when the source
dereferences a NULL body).  Beside the state the result lists, in order, the vertex
arrays handed to `b2PolygonShape::Set`. -/
def setCollisionShapeLoop (env : Env) (shapeList : List Vector2f) (self : Nat) :
    Nat → Nat → GameState → List (List b2Vec2) → Option (GameState × List (List b2Vec2))
  | 0, _, _, _ => none
  | fuel + 1, offset, s, built =>
    if offset < shapeList.length then
      let len := windowLen env shapeList.length offset
      if len < 3 then some (s, built)
      else
        match buildWindow env shapeList self offset len s with
        | none => none
        | some s2 =>
          setCollisionShapeLoop env shapeList self fuel
            ((offset + (env.b2_maxPolygonVertices - 2)) % UINT_RANGE) s2
            (built ++ [windowPoints shapeList offset len])
    else some (s, built)

/-- Method `Collisionable::setCollisionShape(shapeList)`, with the vertex arrays it hands
to the engine. -/
def setCollisionShapeTraced (env : Env) (fuel : Nat) (s : GameState) (self : Nat)
    (shapeList : List Vector2f) : Option (GameState × List (List b2Vec2)) :=
  setCollisionShapeLoop env shapeList self fuel 1 s []

/-- Method `Collisionable::setCollisionShape(shapeList)`. -/
def setCollisionShape (env : Env) (fuel : Nat) (s : GameState) (self : Nat)
    (shapeList : List Vector2f) : Option GameState :=
  (setCollisionShapeTraced env fuel s self shapeList).map Prod.fst

/-- Method `Collisionable::setCollisionPhysics(enablePhysics, staticPhysics)`. -/
def setCollisionPhysics (s : GameState) (self : Nat) (enablePhysics staticPhysics : Bool) :
    Option GameState :=
  let s1 := s.setEntity self
    { s.entities self with enablePhysics := enablePhysics, staticPhysics := staticPhysics }
  match (s1.entities self).body with
  | none => some s1
  | some h =>
    match s1.world.bodies h with
    | none => none
    | some b =>
      let b1 : b2Body :=
        { b with fixtureList := b.fixtureList.map (fun f => f.SetSensor (!enablePhysics)) }
      let type :=
        if staticPhysics then b2BodyType.b2_kinematicBody else b2BodyType.b2_dynamicBody
      some { s1 with world := s1.world.setBody h (b1.SetType type) }

/-- The member initialisation shared by the three constructors. -/
def newCollisionable (s : GameState) (self : Nat) : GameState :=
  s.setEntity self
    { enablePhysics := false, staticPhysics := false, body := none, destroyed := false }

/-- Constructor `Collisionable(float radius)`. -/
def Collisionable.ofRadius (s : GameState) (self : Nat) (radius : ℚ) : Option GameState :=
  setCollisionRadius (newCollisionable s self) self radius

/-- Constructor `Collisionable(boxSize, boxOrigin)`. -/
def Collisionable.ofBox (s : GameState) (self : Nat) (boxSize boxOrigin : Vector2f) :
    Option GameState :=
  setCollisionBox (newCollisionable s self) self boxSize boxOrigin

/-- Constructor `Collisionable(shape)`. -/
def Collisionable.ofShape (env : Env) (fuel : Nat) (s : GameState) (self : Nat)
    (shape : List Vector2f) : Option GameState :=
  setCollisionShape env fuel (newCollisionable s self) self shape

/-! ## Collisionable: accessors -/

/-- Method `Collisionable::setPosition(position)`. -/
def setPosition (s : GameState) (self : Nat) (position : Vector2f) : Option GameState :=
  match (s.entities self).body with
  | none => some s
  | some h =>
    match s.world.bodies h with
    | none => none
    | some b =>
      some { s with world := s.world.setBody h (b.SetTransform (v2b position) b.angle) }

/-- Method `Collisionable::getPosition()`. -/
def getPosition (s : GameState) (self : Nat) : Option Vector2f :=
  match (s.entities self).body with
  | none => some ⟨0, 0⟩
  | some h =>
    match s.world.bodies h with
    | none => none
    | some b => some (b2v b.position)

/-- Method `Collisionable::setRotation(angle)`. -/
def setRotation (s : GameState) (self : Nat) (angle : ℚ) : Option GameState :=
  match (s.entities self).body with
  | none => some s
  | some h =>
    match s.world.bodies h with
    | none => none
    | some b =>
      some { s with world := s.world.setBody h (b.SetTransform b.position (angle / 180 * M_PI)) }

/-- Method `Collisionable::getRotation()`. -/
def getRotation (s : GameState) (self : Nat) : Option ℚ :=
  match (s.entities self).body with
  | none => some 0
  | some h =>
    match s.world.bodies h with
    | none => none
    | some b => some (b.angle / M_PI * 180)

/-- Method `Collisionable::setVelocity(velocity)`. -/
def setVelocity (s : GameState) (self : Nat) (velocity : Vector2f) : Option GameState :=
  match (s.entities self).body with
  | none => some s
  | some h =>
    match s.world.bodies h with
    | none => none
    | some b => some { s with world := s.world.setBody h (b.SetLinearVelocity (v2b velocity)) }

/-- Method `Collisionable::getVelocity()`. -/
def getVelocity (s : GameState) (self : Nat) : Option Vector2f :=
  match (s.entities self).body with
  | none => some ⟨0, 0⟩
  | some h =>
    match s.world.bodies h with
    | none => none
    | some b => some (b2v b.linearVelocity)

/-- Method `Collisionable::setAngularVelocity(velocity)`. -/
def setAngularVelocity (s : GameState) (self : Nat) (velocity : ℚ) : Option GameState :=
  match (s.entities self).body with
  | none => some s
  | some h =>
    match s.world.bodies h with
    | none => none
    | some b =>
      some { s with world := s.world.setBody h (b.SetAngularVelocity (velocity / 180 * M_PI)) }

/-- Method `Collisionable::getAngularVelocity()`. -/
def getAngularVelocity (s : GameState) (self : Nat) : Option ℚ :=
  match (s.entities self).body with
  | none => some 0
  | some h =>
    match s.world.bodies h with
    | none => none
    | some b => some (b.angularVelocity / M_PI * 180)

/-- Method `Collisionable::applyImpulse(position, impulse)`. -/
def applyImpulse (env : Env) (s : GameState) (self : Nat) (position impulse : Vector2f) :
    Option GameState :=
  match (s.entities self).body with
  | none => some s
  | some h =>
    match s.world.bodies h with
    | none => none
    | some b =>
      some { s with world :=
        s.world.setBody h (env.ApplyLinearImpulse b (v2b impulse) (v2b position) true) }

/-- Method `Collisionable::toLocalSpace(v)`. -/
def toLocalSpace (env : Env) (s : GameState) (self : Nat) (v : Vector2f) : Option Vector2f :=
  match (s.entities self).body with
  | none => some ⟨0, 0⟩
  | some h =>
    match s.world.bodies h with
    | none => none
    | some b => some (b2v (env.GetLocalPoint b (v2b v)))

/-- Method `Collisionable::toWorldSpace(v)`. -/
def toWorldSpace (env : Env) (s : GameState) (self : Nat) (v : Vector2f) : Option Vector2f :=
  match (s.entities self).body with
  | none => some ⟨0, 0⟩
  | some h =>
    match s.world.bodies h with
    | none => none
    | some b => some (b2v (env.GetWorldPoint b (v2b v)))

/-- Method `Collisionable::getCollisionShape()`; the first fixture of the list decides. -/
def getCollisionShape (env : Env) (s : GameState) (self : Nat) : Option (List Vector2f) :=
  match (s.entities self).body with
  | none => some []
  | some h =>
    match s.world.bodies h with
    | none => none
    | some b =>
      match b.fixtureList with
      | [] => none
      | f :: _ =>
        match f.shape with
        | b2Shape.e_circle m_radius =>
          let radius := m_radius * BOX2D_SCALE
          some ((List.range 32).map (fun n =>
            (⟨env.sin ((n : ℚ) / 32 * M_PI * 2) * radius,
              env.cos ((n : ℚ) / 32 * M_PI * 2) * radius⟩ : Vector2f)))
        | b2Shape.e_polygon vs => some (vs.map b2v)
        | _ => some []

/-! ## CollisionManager::handleCollisions -/

/-- The calls and loop passes of one `handleCollisions`, recorded in the order they happen. -/
inductive Event where
  /-- Call `world->Step(delta, 4, 8)`. -/
  | step (delta : ℚ)
  /-- One pass of the loop over the contact list. -/
  | examine (c : b2Contact)
  /-- Call `receiver->collision(target)`. -/
  | hook (receiver target : Nat)
  /-- Call `world->DestroyBody(owner->body)`, followed by `owner->body = NULL`. -/
  | destroyBody (owner : Nat) (body : Nat)
deriving DecidableEq

/-- Class `Collision`: the two participants of a recorded contact. -/
structure Collision where
  A : Nat
  B : Nat
deriving DecidableEq

/-- The locals of `handleCollisions` that the contact walk writes. -/
structure WalkState where
  collisions : List Collision
  destroy : Option Nat
  trace : List Event

/-- One pass of the loop over the contact list (lines 69 to 82). -/
def walkContact (entities : Nat → Collisionable) (st : WalkState) (contact : b2Contact) :
    WalkState :=
  let st1 : WalkState := { st with trace := st.trace ++ [Event.examine contact] }
  if contact.touching && contact.enabled then
    let A := contact.userDataA
    let B := contact.userDataB
    if !(entities A).destroyed && !(entities B).destroyed then
      { st1 with collisions := st1.collisions ++ [⟨A, B⟩] }
    else
      let d1 := if (entities A).destroyed then some A else st1.destroy
      let d2 := if (entities B).destroyed then some B else d1
      { st1 with destroy := d2 }
  else st1

/-- The loop over the contact list (lines 67 to 83). -/
def contactWalk (entities : Nat → Collisionable) (contacts : List b2Contact)
    (st : WalkState) : WalkState :=
  contacts.foldl (walkContact entities) st

/-- The loop over the recorded collisions (lines 85 to 94). -/
def dispatchCollisions (env : Env) :
    List Collision → GameState × List Event → GameState × List Event
  | [], acc => acc
  | c :: rest, (s, trace) =>
    if env.pvalid s c.A && env.pvalid s c.B then
      let s1 := env.collision c.A c.B s
      let s2 := env.collision c.B c.A s1
      dispatchCollisions env rest (s2, trace ++ [Event.hook c.A c.B, Event.hook c.B c.A])
    else dispatchCollisions env rest (s, trace)

/-- The calls made by one `handleCollisions`, and the state it returns with (`none` when
the source dereferences a pointer that is no body). -/
structure Outcome where
  trace : List Event
  final : Option GameState

/-- The lazy cleanup at the end of `handleCollisions` (lines 97 to 101). -/
def lazyCleanup (env : Env) (destroy : Option Nat) (s : GameState) (trace : List Event) :
    Outcome :=
  match destroy with
  | none => ⟨trace, some s⟩
  | some d =>
    if env.pvalid s d then
      match (s.entities d).body with
      | none => ⟨trace, none⟩
      | some h =>
        match s.world.DestroyBody h with
        | none => ⟨trace, none⟩
        | some w =>
          let s1 : GameState := { s with world := w }
          ⟨trace ++ [Event.destroyBody d h],
            some (s1.setEntity d { s1.entities d with body := none })⟩
    else ⟨trace, some s⟩

/-- State after `world->Step(delta, 4, 8)`. -/
def afterStep (env : Env) (delta : ℚ) (s : GameState) : GameState :=
  { s with world := env.Step s.world delta 4 8 }

/-- Locals after the contact walk of a step with `delta > 0`. -/
def afterWalk (env : Env) (delta : ℚ) (s : GameState) : WalkState :=
  contactWalk (afterStep env delta s).entities (afterStep env delta s).world.contactList
    ⟨[], none, [Event.step delta]⟩

/-- State and trace after the dispatch loop of a step with `delta > 0`. -/
def afterDispatch (env : Env) (delta : ℚ) (s : GameState) : GameState × List Event :=
  dispatchCollisions env (afterWalk env delta s).collisions
    (afterStep env delta s, (afterWalk env delta s).trace)

/-- Function `CollisionManager::handleCollisions(delta)`. -/
def handleCollisions (env : Env) (delta : ℚ) (s : GameState) : Outcome :=
  if delta ≤ 0 then ⟨[], some s⟩
  else
    lazyCleanup env (afterWalk env delta s).destroy (afterDispatch env delta s).1
      (afterDispatch env delta s).2

/-- The hook calls that the dispatch loop (lines 85 to 94) makes for the recorded pairs `l`
when it starts on them in state `t`. -/
def hookCalls (env : Env) (l : List Collision) (t : GameState) : List Event :=
  (dispatchCollisions env l (t, [])).2

/-- The state in which the dispatch loop (lines 85 to 94) leaves the recorded pairs `l`
when it starts on them in state `t`. -/
def stateAfterPairs (env : Env) (l : List Collision) (t : GameState) : GameState :=
  (dispatchCollisions env l (t, [])).1

/-! ## The words of the spec about the contact walk -/

/-- Whether the spec records a contact for dispatch: it is touching and enabled and neither
participant is marked destroyed. -/
def qualifies (entities : Nat → Collisionable) (c : b2Contact) : Bool :=
  c.touching && c.enabled &&
    !(entities c.userDataA).destroyed && !(entities c.userDataB).destroyed

/-- The pairs the spec calls "recorded for dispatch", in contact-list order. -/
def recorded (entities : Nat → Collisionable) (contacts : List b2Contact) : List Collision :=
  (contacts.filter (qualifies entities)).map (fun c => ⟨c.userDataA, c.userDataB⟩)

/-- The destroyed participants of touching, enabled contacts, in the order the spec gives
them: contact-list order, and within one contact the owner of fixture A before the owner of
fixture B. -/
def destroyedParticipants (entities : Nat → Collisionable) : List b2Contact → List Nat
  | [] => []
  | c :: rest =>
    (if c.touching && c.enabled then
      [c.userDataA, c.userDataB].filter (fun n => (entities n).destroyed)
    else []) ++ destroyedParticipants entities rest

/-- Start index `o = 1 + k*(M-2)` of window `k`, in the words of the spec. -/
def windowStart (M k : Nat) : Nat := 1 + k * (M - 2)

/-- Last chain index `min(N-1, o+M-2)` of window `k`, in the words of the spec. -/
def windowEnd (N M k : Nat) : Nat := min (N - 1) (windowStart M k + M - 2)

/-- Point list of window `k` in the words of the spec: the anchor `p[0]`, then the chain
points `p[o], ..., p[min(N-1, o+M-2)]`, in simulation units. -/
def specWindow (shapeList : List Vector2f) (M k : Nat) : List b2Vec2 :=
  v2b (shapeList.getD 0 ⟨0, 0⟩) ::
    ((shapeList.take (windowEnd shapeList.length M k + 1)).drop (windowStart M k)).map v2b

/-- Number of points window `k` would have: the anchor and the chain points from `o` on,
cut at `M` points. -/
def windowSize (N M k : Nat) : Nat := min M (N - windowStart M k + 1)

/-- Number of windows built for a chain of `N` points: the windows whose start `o` leaves
at least two chain points, `o + 2 <= N`. -/
def windowCount (N M : Nat) : Nat := if N < 3 then 0 else (N - 3) / (M - 2) + 1

/-- The invariant of C10 for entity `self`: if it has a body, the body is in the world,
each of its fixtures is a sensor exactly when `enablePhysics` is off, and its type is
kinematic when `staticPhysics` is on and dynamic otherwise. -/
def physicsInvariant (s : GameState) (self : Nat) : Bool :=
  match (s.entities self).body with
  | none => true
  | some h =>
    match s.world.bodies h with
    | none => false
    | some b =>
      b.fixtureList.all (fun f => f.isSensor == !(s.entities self).enablePhysics) &&
        b.m_type == (if (s.entities self).staticPhysics then b2BodyType.b2_kinematicBody
          else b2BodyType.b2_dynamicBody)

/-- Number of fixtures on the body of entity `self` (0 without a body). -/
def fixtureCount (s : GameState) (self : Nat) : Nat :=
  match (s.entities self).body with
  | none => 0
  | some h =>
    match s.world.bodies h with
    | none => 0
    | some b => b.fixtureList.length

/-- The fixture built for one window, in the words of the spec: the polygon the engine
makes of the point list, or the fallback box at the anchor (the first point of the list)
when the engine reports the list as not valid; density 1, friction 0.1. -/
def windowFixture (env : Env) (sensor : Bool) (pts : List b2Vec2) : b2Fixture :=
  { shape :=
      match env.polygonSet pts with
      | some vs => b2Shape.e_polygon vs
      | none => SetAsBox (1 / BOX2D_SCALE) (1 / BOX2D_SCALE) (pts.getD 0 ⟨0, 0⟩)
    density := 1
    friction := 1 / 10
    isSensor := sensor }

/-- The fixture list of the body of entity `self`, newest first (empty without a body). -/
def bodyFixtures (s : GameState) (self : Nat) : List b2Fixture :=
  match (s.entities self).body with
  | none => []
  | some h =>
    match s.world.bodies h with
    | none => []
    | some b => b.fixtureList

/-! ## Concrete instances used to evaluate the definitions -/

/-- An environment: engine limit of 8 vertices, a `Step` that moves nothing, the default
empty `collision` hook, references that never read as null, polygons always valid. -/
def exampleEnv : Env :=
  { b2_maxPolygonVertices := 8
    Step := fun w _ _ _ => w
    collision := fun _ _ s => s
    pvalid := fun _ _ => true
    polygonSet := fun ps => some ps
    GetLocalPoint := fun _ p => p
    GetWorldPoint := fun _ p => p
    ApplyLinearImpulse := fun b _ _ _ => b
    sin := fun _ => 0
    cos := fun _ => 1 }

/-- The environment `exampleEnv` with references that read as null as soon as the entity
they were set to is marked destroyed. -/
def weakRefEnv : Env :=
  { exampleEnv with pvalid := fun s n => !(s.entities n).destroyed }

/-- The environment `weakRefEnv` with a hook by which entity 1 marks its target destroyed
(the hooks of the other entities are empty). -/
def destroyingEnv : Env :=
  { weakRefEnv with collision := fun receiver target s =>
      if receiver = 1 then destroy s target else s }

/-- A chain of `2^32 + 2` points. -/
def hugeChain : List Vector2f := List.replicate (UINT_RANGE + 2) ⟨0, 0⟩

/-- A convex octagon, a chain of eight points. -/
def octagon : List Vector2f :=
  [⟨2, 0⟩, ⟨4, 0⟩, ⟨6, 2⟩, ⟨6, 4⟩, ⟨4, 6⟩, ⟨2, 6⟩, ⟨0, 4⟩, ⟨0, 2⟩]

/-- A chain of nine points on a parabola. -/
def parabola : List Vector2f :=
  [⟨0, 0⟩, ⟨1, 1⟩, ⟨2, 4⟩, ⟨3, 9⟩, ⟨4, 16⟩, ⟨5, 25⟩, ⟨6, 36⟩, ⟨7, 49⟩, ⟨8, 64⟩]

/-- A dynamic body owned by entity `owner`, with the two sensor fixtures that
`setCollisionShape` builds for the chain `parabola` (newest first). -/
def exampleBody (owner : Nat) : b2Body :=
  { m_type := b2BodyType.b2_dynamicBody, m_userData := owner, allowSleep := false,
    position := ⟨0, 0⟩, angle := 0, linearVelocity := ⟨0, 0⟩, angularVelocity := 0,
    fixtureList :=
      [{ shape := b2Shape.e_polygon (specWindow parabola 8 1), density := 1,
         friction := 1 / 10, isSensor := true },
       { shape := b2Shape.e_polygon (specWindow parabola 8 0), density := 1,
         friction := 1 / 10, isSensor := true }] }

/-- A world without bodies and contacts, and entities without a body. -/
def emptyState : GameState :=
  { world := { bodies := fun _ => none, nextBody := 0, contactList := [] }
    entities := fun _ =>
      { enablePhysics := false, staticPhysics := false, body := none, destroyed := false } }

/-- Entities 1 to 4, entity `n` owning body `n` (an `exampleBody`); the entities listed in
`dead` are marked destroyed; the contact list is `contacts`. -/
def exampleState (dead : List Nat) (contacts : List b2Contact) : GameState :=
  { world :=
      { bodies := fun h => if 1 ≤ h ∧ h ≤ 4 then some (exampleBody h) else none
        nextBody := 5
        contactList := contacts }
    entities := fun n =>
      { enablePhysics := false, staticPhysics := false,
        body := if 1 ≤ n ∧ n ≤ 4 then some n else none,
        destroyed := decide (n ∈ dead) } }

/-! ## Unit conversion and accessors -/

theorem M_PI_ne_zero : M_PI ≠ 0 := by
  unfold M_PI
  norm_num

/-- The body of `exampleState` is the body that the constructor builds for the chain
`parabola`: two fixtures on one body. -/
theorem ofShape_parabola_body :
    (Collisionable.ofShape exampleEnv 10 emptyState 1 parabola).bind
        (fun t => t.world.bodies 0) = some (exampleBody 1) :=
  rfl

theorem b2v_v2b (p : Vector2f) : b2v (v2b p) = p := by
  cases p
  simp [b2v, v2b, BOX2D_SCALE]

theorem v2b_b2v (q : b2Vec2) : v2b (b2v q) = q := by
  cases q
  simp [b2v, v2b, BOX2D_SCALE]

theorem setBody_bodies_self (w : b2World) (h : Nat) (b : b2Body) :
    (w.setBody h b).bodies h = some b := by
  simp [b2World.setBody]

/-- C6. In exact arithmetic, on an entity that has a body, each setter followed by its
getter returns the value that was set (position, velocity, rotation in degrees without
wrapping, angular velocity), and `b2v` and `v2b` with the scale factor 20 are inverse to
each other. -/
theorem set_get_roundtrip (s : GameState) (self h : Nat) (b : b2Body)
    (hbody : (s.entities self).body = some h) (hlive : s.world.bodies h = some b)
    (p v : Vector2f) (a w : ℚ) (q : b2Vec2) :
    ((setPosition s self p).bind (fun t => getPosition t self) = some p) ∧
    ((setVelocity s self v).bind (fun t => getVelocity t self) = some v) ∧
    ((setRotation s self a).bind (fun t => getRotation t self) = some a) ∧
    ((setAngularVelocity s self w).bind (fun t => getAngularVelocity t self) = some w) ∧
    b2v (v2b p) = p ∧ v2b (b2v q) = q ∧ BOX2D_SCALE = 20 := by
  have hpi := M_PI_ne_zero
  refine ⟨?_, ?_, ?_, ?_, b2v_v2b p, v2b_b2v q, rfl⟩
  · simp [setPosition, getPosition, hbody, hlive, setBody_bodies_self, b2Body.SetTransform,
      b2v_v2b]
  · simp [setVelocity, getVelocity, hbody, hlive, setBody_bodies_self,
      b2Body.SetLinearVelocity, b2v_v2b]
  · simp [setRotation, getRotation, hbody, hlive, setBody_bodies_self, b2Body.SetTransform]
    field_simp
    ring
  · simp [setAngularVelocity, getAngularVelocity, hbody, hlive, setBody_bodies_self,
      b2Body.SetAngularVelocity]
    field_simp
    ring

/-- Witness of C6: entity 1 of the example state, which owns body 1. -/
theorem set_get_roundtrip_witness :
    ((setPosition (exampleState [] []) 1 ⟨30, -7⟩).bind (fun t => getPosition t 1)
        = some ⟨30, -7⟩) ∧
    ((setVelocity (exampleState [] []) 1 ⟨50, 0⟩).bind (fun t => getVelocity t 1)
        = some ⟨50, 0⟩) ∧
    ((setRotation (exampleState [] []) 1 450).bind (fun t => getRotation t 1) = some 450) ∧
    ((setAngularVelocity (exampleState [] []) 1 (-90)).bind
        (fun t => getAngularVelocity t 1) = some (-90)) ∧
    b2v (v2b ⟨30, -7⟩) = ⟨30, -7⟩ ∧ v2b (b2v ⟨3, 4⟩) = ⟨3, 4⟩ ∧ BOX2D_SCALE = 20 :=
  set_get_roundtrip (exampleState [] []) 1 1 (exampleBody 1) (by simp [exampleState])
    (by simp [exampleState]) ⟨30, -7⟩ ⟨50, 0⟩ 450 (-90) ⟨3, 4⟩

/-- C7. On an entity whose body reference is null, the getters return the zero vector,
the zero angle and the empty shape list, the setters and `applyImpulse` return with the
state unchanged, and none of them fails. -/
theorem null_body_defaults (env : Env) (s : GameState) (self : Nat)
    (hnull : (s.entities self).body = none) (p v : Vector2f) (a : ℚ) :
    getPosition s self = some ⟨0, 0⟩ ∧ getVelocity s self = some ⟨0, 0⟩ ∧
    toLocalSpace env s self v = some ⟨0, 0⟩ ∧ toWorldSpace env s self v = some ⟨0, 0⟩ ∧
    getRotation s self = some 0 ∧ getAngularVelocity s self = some 0 ∧
    getCollisionShape env s self = some [] ∧
    setPosition s self p = some s ∧ setRotation s self a = some s ∧
    setVelocity s self v = some s ∧ setAngularVelocity s self a = some s ∧
    applyImpulse env s self p v = some s := by
  simp [getPosition, getVelocity, toLocalSpace, toWorldSpace, getRotation,
    getAngularVelocity, getCollisionShape, setPosition, setRotation, setVelocity,
    setAngularVelocity, applyImpulse, hnull]

/-- Witness of C7: entity 9 of the example state has no body. -/
theorem null_body_defaults_witness :
    getPosition (exampleState [] []) 9 = some ⟨0, 0⟩ ∧
    getVelocity (exampleState [] []) 9 = some ⟨0, 0⟩ ∧
    toLocalSpace exampleEnv (exampleState [] []) 9 ⟨5, 6⟩ = some ⟨0, 0⟩ ∧
    toWorldSpace exampleEnv (exampleState [] []) 9 ⟨5, 6⟩ = some ⟨0, 0⟩ ∧
    getRotation (exampleState [] []) 9 = some 0 ∧
    getAngularVelocity (exampleState [] []) 9 = some 0 ∧
    getCollisionShape exampleEnv (exampleState [] []) 9 = some [] ∧
    setPosition (exampleState [] []) 9 ⟨1, 2⟩ = some (exampleState [] []) ∧
    setRotation (exampleState [] []) 9 90 = some (exampleState [] []) ∧
    setVelocity (exampleState [] []) 9 ⟨5, 6⟩ = some (exampleState [] []) ∧
    setAngularVelocity (exampleState [] []) 9 90 = some (exampleState [] []) ∧
    applyImpulse exampleEnv (exampleState [] []) 9 ⟨1, 2⟩ ⟨5, 6⟩
      = some (exampleState [] []) :=
  null_body_defaults exampleEnv (exampleState [] []) 9 (by simp [exampleState]) ⟨1, 2⟩
    ⟨5, 6⟩ 90

/-! ## The collision pass -/

/-- C2. With `delta <= 0` the call returns at once: no simulation step, no hook, no body
removed, and the state it returns with is the state it was called in. -/
theorem handleCollisions_skips_nonpositive (env : Env) (delta : ℚ) (s : GameState)
    (hdelta : delta ≤ 0) :
    (handleCollisions env delta s).trace = [] ∧
    (handleCollisions env delta s).final = some s := by
  simp [handleCollisions, hdelta]

/-- Witness of C2: a step of `-1` on a state with a touching contact. -/
theorem handleCollisions_skips_nonpositive_witness :
    ((-1 : ℚ) ≤ 0) ∧
    (handleCollisions exampleEnv (-1) (exampleState [1] [⟨true, true, 1, 2⟩])).trace = [] ∧
    (handleCollisions exampleEnv (-1) (exampleState [1] [⟨true, true, 1, 2⟩])).final
      = some (exampleState [1] [⟨true, true, 1, 2⟩]) :=
  ⟨by norm_num,
    handleCollisions_skips_nonpositive exampleEnv (-1) (exampleState [1] [⟨true, true, 1, 2⟩])
      (by norm_num)⟩

theorem getLast?_append_cons {α : Type} (xs : List α) (a : α) (ys : List α) :
    (xs ++ a :: ys).getLast? = (a :: ys).getLast? := by
  induction xs with
  | nil => rfl
  | cons x xs ih =>
    cases xs with
    | nil => simp [List.getLast?]
    | cons y ys2 =>
      simp only [List.cons_append] at ih ⊢
      rw [List.getLast?_cons_cons]
      exact ih

theorem contactWalk_cons (entities : Nat → Collisionable) (c : b2Contact)
    (cs : List b2Contact) (st : WalkState) :
    contactWalk entities (c :: cs) st = contactWalk entities cs (walkContact entities st c) :=
  rfl

theorem recorded_cons (entities : Nat → Collisionable) (c : b2Contact)
    (cs : List b2Contact) :
    recorded entities (c :: cs)
      = if qualifies entities c then ⟨c.userDataA, c.userDataB⟩ :: recorded entities cs
        else recorded entities cs := by
  unfold recorded
  rw [List.filter_cons]
  split_ifs <;> rfl

theorem destroyedParticipants_cons (entities : Nat → Collisionable) (c : b2Contact)
    (cs : List b2Contact) :
    destroyedParticipants entities (c :: cs)
      = (if c.touching && c.enabled then
          [c.userDataA, c.userDataB].filter (fun n => (entities n).destroyed)
        else []) ++ destroyedParticipants entities cs :=
  rfl

theorem walkContact_trace (entities : Nat → Collisionable) (st : WalkState) (c : b2Contact) :
    (walkContact entities st c).trace = st.trace ++ [Event.examine c] := by
  cases ht : c.touching <;> cases he : c.enabled <;>
    cases hA : (entities c.userDataA).destroyed <;>
    cases hB : (entities c.userDataB).destroyed <;>
    simp [walkContact, ht, he, hA, hB]

theorem walkContact_collisions (entities : Nat → Collisionable) (st : WalkState)
    (c : b2Contact) :
    (walkContact entities st c).collisions
      = st.collisions ++ (if qualifies entities c then [⟨c.userDataA, c.userDataB⟩] else []) := by
  cases ht : c.touching <;> cases he : c.enabled <;>
    cases hA : (entities c.userDataA).destroyed <;>
    cases hB : (entities c.userDataB).destroyed <;>
    simp [walkContact, qualifies, ht, he, hA, hB]

theorem walkContact_destroy (entities : Nat → Collisionable) (st : WalkState)
    (c : b2Contact) (rest : List Nat) :
    ((walkContact entities st c).destroy.toList ++ rest).getLast?
      = (st.destroy.toList ++ ((if c.touching && c.enabled then
          [c.userDataA, c.userDataB].filter (fun n => (entities n).destroyed)
        else []) ++ rest)).getLast? := by
  cases ht : c.touching <;> cases he : c.enabled <;>
    cases hA : (entities c.userDataA).destroyed <;>
    cases hB : (entities c.userDataB).destroyed <;>
    simp [-List.getLast?_append, walkContact, ht, he, hA, hB, getLast?_append_cons]

theorem contactWalk_trace (entities : Nat → Collisionable) (cs : List b2Contact) :
    ∀ st : WalkState,
      (contactWalk entities cs st).trace = st.trace ++ cs.map Event.examine := by
  induction cs with
  | nil => intro st; simp [contactWalk]
  | cons c cs ih =>
    intro st
    rw [contactWalk_cons, ih, walkContact_trace]
    simp

theorem contactWalk_collisions (entities : Nat → Collisionable) (cs : List b2Contact) :
    ∀ st : WalkState,
      (contactWalk entities cs st).collisions = st.collisions ++ recorded entities cs := by
  induction cs with
  | nil => intro st; simp [contactWalk, recorded]
  | cons c cs ih =>
    intro st
    rw [contactWalk_cons, ih, walkContact_collisions, recorded_cons]
    split_ifs <;> simp

theorem contactWalk_destroy (entities : Nat → Collisionable) (cs : List b2Contact) :
    ∀ st : WalkState,
      (contactWalk entities cs st).destroy
        = (st.destroy.toList ++ destroyedParticipants entities cs).getLast? := by
  induction cs with
  | nil =>
    intro st
    cases hd : st.destroy <;> simp [contactWalk, destroyedParticipants, hd]
  | cons c cs ih =>
    intro st
    rw [contactWalk_cons, ih, walkContact_destroy, destroyedParticipants_cons]


theorem hook_pair_count (c : Collision) (A B : Nat) (l : List Event) :
    (Event.hook c.A c.B :: Event.hook c.B c.A :: l).count (Event.hook A B)
      = l.count (Event.hook A B) + ([c].count ⟨A, B⟩ + [c].count ⟨B, A⟩) := by
  rcases c with ⟨a, b⟩
  simp only [List.count_cons, List.count_nil, beq_iff_eq, Event.hook.injEq, Collision.mk.injEq]
  by_cases hAB : A = B
  · subst hAB
    by_cases h1 : a = A <;> by_cases h2 : b = A <;> simp [h1, h2]
  · have hBA : ¬ B = A := fun h => hAB h.symm
    by_cases h1 : a = A <;> by_cases h2 : b = B <;> by_cases h3 : a = B <;>
      by_cases h4 : b = A <;> simp_all

theorem dispatch_trace (env : Env) (cs : List Collision) :
    ∀ (s : GameState) (tr : List Event),
      ∃ hooks : List Event,
        (dispatchCollisions env cs (s, tr)).2 = tr ++ hooks ∧
        (∀ e ∈ hooks, ∃ a b, e = Event.hook a b) ∧
        (∀ A B, hooks.count (Event.hook A B) ≤ cs.count ⟨A, B⟩ + cs.count ⟨B, A⟩) ∧
        ((∀ t n, env.pvalid t n = true) →
          ∀ A B, hooks.count (Event.hook A B) = cs.count ⟨A, B⟩ + cs.count ⟨B, A⟩) := by
  induction cs with
  | nil =>
    intro s tr
    exact ⟨[], by simp [dispatchCollisions], by simp, by simp, by simp⟩
  | cons c rest ih =>
    intro s tr
    by_cases hg : (env.pvalid s c.A && env.pvalid s c.B) = true
    · obtain ⟨hooks, h1, h2, h3, h4⟩ :=
        ih (env.collision c.B c.A (env.collision c.A c.B s))
          (tr ++ [Event.hook c.A c.B, Event.hook c.B c.A])
      refine ⟨Event.hook c.A c.B :: Event.hook c.B c.A :: hooks, ?_, ?_, ?_, ?_⟩
      · simp only [dispatchCollisions, hg, if_true]
        rw [h1]
        simp
      · intro e he
        simp only [List.mem_cons] at he
        rcases he with he | he | he
        · exact ⟨_, _, he⟩
        · exact ⟨_, _, he⟩
        · exact h2 e he
      · intro A B
        have := h3 A B
        rw [hook_pair_count]
        simp only [List.count_cons, List.count_nil] at this ⊢
        omega
      · intro hP A B
        have := h4 hP A B
        rw [hook_pair_count]
        simp only [List.count_cons, List.count_nil] at this ⊢
        omega
    · obtain ⟨hooks, h1, h2, h3, h4⟩ := ih s tr
      refine ⟨hooks, ?_, h2, ?_, ?_⟩
      · simp only [dispatchCollisions, hg]
        exact h1
      · intro A B
        have := h3 A B
        simp only [List.count_cons] at this ⊢
        omega
      · intro hP
        exact absurd (by simp [hP]) hg

theorem lazyCleanup_trace (env : Env) (destroy : Option Nat) (s : GameState)
    (tr : List Event) :
    ∃ cleanup : List Event,
      (lazyCleanup env destroy s tr).trace = tr ++ cleanup ∧
      (cleanup = [] ∨ ∃ d h, cleanup = [Event.destroyBody d h]) := by
  unfold lazyCleanup
  cases destroy with
  | none => exact ⟨[], by simp, Or.inl rfl⟩
  | some d =>
    by_cases hP : env.pvalid s d = true
    · cases hb : (s.entities d).body with
      | none => exact ⟨[], by simp [hP, hb], Or.inl rfl⟩
      | some h =>
        cases hw : s.world.DestroyBody h with
        | none => exact ⟨[], by simp [hP, hb, hw], Or.inl rfl⟩
        | some w => exact ⟨[Event.destroyBody d h], by simp [hP, hb, hw], Or.inr ⟨d, h, rfl⟩⟩
    · exact ⟨[], by simp [hP], Or.inl rfl⟩

theorem afterWalk_trace (env : Env) (delta : ℚ) (s : GameState) :
    (afterWalk env delta s).trace
      = Event.step delta :: (afterStep env delta s).world.contactList.map Event.examine := by
  unfold afterWalk
  rw [contactWalk_trace]
  rfl

theorem afterWalk_collisions (env : Env) (delta : ℚ) (s : GameState) :
    (afterWalk env delta s).collisions
      = recorded (afterStep env delta s).entities (afterStep env delta s).world.contactList := by
  unfold afterWalk
  rw [contactWalk_collisions]
  rfl

theorem afterWalk_destroy (env : Env) (delta : ℚ) (s : GameState) :
    (afterWalk env delta s).destroy
      = (destroyedParticipants (afterStep env delta s).entities
          (afterStep env delta s).world.contactList).getLast? := by
  unfold afterWalk
  rw [contactWalk_destroy]
  rfl

/-- Shape of the calls of one step with `delta > 0`: the simulation step, one pass per
contact, the hook calls, and at most one body removal. -/
theorem handleCollisions_shape (env : Env) (delta : ℚ) (s : GameState) (hdelta : 0 < delta) :
    ∃ hooks cleanup : List Event,
      (afterDispatch env delta s).2
        = Event.step delta ::
            ((afterStep env delta s).world.contactList.map Event.examine ++ hooks) ∧
      (handleCollisions env delta s).trace = (afterDispatch env delta s).2 ++ cleanup ∧
      (∀ e ∈ hooks, ∃ a b, e = Event.hook a b) ∧
      (∀ A B, hooks.count (Event.hook A B)
        ≤ (recorded (afterStep env delta s).entities
              (afterStep env delta s).world.contactList).count ⟨A, B⟩
          + (recorded (afterStep env delta s).entities
              (afterStep env delta s).world.contactList).count ⟨B, A⟩) ∧
      ((∀ t n, env.pvalid t n = true) →
        ∀ A B, hooks.count (Event.hook A B)
          = (recorded (afterStep env delta s).entities
                (afterStep env delta s).world.contactList).count ⟨A, B⟩
            + (recorded (afterStep env delta s).entities
                (afterStep env delta s).world.contactList).count ⟨B, A⟩) ∧
      (cleanup = [] ∨ ∃ d h, cleanup = [Event.destroyBody d h]) := by
  obtain ⟨hooks, h1, h2, h3, h4⟩ :=
    dispatch_trace env (afterWalk env delta s).collisions (afterStep env delta s)
      (afterWalk env delta s).trace
  obtain ⟨cleanup, c1, c2⟩ :=
    lazyCleanup_trace env (afterWalk env delta s).destroy (afterDispatch env delta s).1
      (afterDispatch env delta s).2
  rw [afterWalk_collisions] at h3 h4
  refine ⟨hooks, cleanup, ?_, ?_, h2, h3, h4, c2⟩
  · unfold afterDispatch
    rw [h1, afterWalk_trace]
    simp
  · unfold handleCollisions
    rw [if_neg (not_le.mpr hdelta)]
    exact c1


theorem count_hook_examine (cs : List b2Contact) (A B : Nat) :
    (cs.map Event.examine).count (Event.hook A B) = 0 := by
  rw [List.count_eq_zero]
  intro h
  rw [List.mem_map] at h
  obtain ⟨c, _, hc⟩ := h
  cases hc

theorem count_hook_cleanup (cleanup : List Event) (A B : Nat)
    (h : cleanup = [] ∨ ∃ d k, cleanup = [Event.destroyBody d k]) :
    cleanup.count (Event.hook A B) = 0 := by
  rcases h with h | ⟨d, k, h⟩ <;> subst h <;> simp [List.count_cons]

theorem mem_recorded (entities : Nat → Collisionable) (cs : List b2Contact) (A B : Nat) :
    (⟨A, B⟩ : Collision) ∈ recorded entities cs ↔
      ∃ c ∈ cs, c.touching = true ∧ c.enabled = true ∧
        (entities c.userDataA).destroyed = false ∧ (entities c.userDataB).destroyed = false ∧
        c.userDataA = A ∧ c.userDataB = B := by
  unfold recorded
  simp only [List.mem_map, List.mem_filter, qualifies, Bool.and_eq_true, Bool.not_eq_true',
    Collision.mk.injEq]
  constructor
  · rintro ⟨c, ⟨hc, ⟨⟨⟨ht, he⟩, hA⟩, hB⟩⟩, h1, h2⟩
    exact ⟨c, hc, ht, he, hA, hB, h1, h2⟩
  · rintro ⟨c, hc, ht, he, hA, hB, h1, h2⟩
    exact ⟨c, ⟨hc, ⟨⟨⟨ht, he⟩, hA⟩, hB⟩⟩, h1, h2⟩

theorem mem_destroyedParticipants (entities : Nat → Collisionable) (cs : List b2Contact)
    (d : Nat) :
    d ∈ destroyedParticipants entities cs ↔
      (entities d).destroyed = true ∧
        ∃ c ∈ cs, c.touching = true ∧ c.enabled = true ∧ (c.userDataA = d ∨ c.userDataB = d) := by
  induction cs with
  | nil => simp [destroyedParticipants]
  | cons c cs ih =>
    rw [destroyedParticipants_cons, List.mem_append, ih]
    by_cases h1 : (c.touching && c.enabled) = true
    · have h1b := h1
      rw [Bool.and_eq_true] at h1b
      simp only [h1, if_true, List.mem_filter, List.mem_cons, List.mem_singleton,
        List.not_mem_nil, or_false, exists_eq_or_imp]
      constructor
      · rintro (⟨hd, hdes⟩ | ⟨hdes, hc⟩)
        · refine ⟨hdes, Or.inl ⟨h1b.1, h1b.2, ?_⟩⟩
          rcases hd with hd | hd
          · exact Or.inl hd.symm
          · exact Or.inr hd.symm
        · exact ⟨hdes, Or.inr hc⟩
      · rintro ⟨hdes, (⟨_, _, hd⟩ | hc)⟩
        · left
          refine ⟨?_, hdes⟩
          rcases hd with hd | hd
          · exact Or.inl hd.symm
          · exact Or.inr hd.symm
        · exact Or.inr ⟨hdes, hc⟩
    · simp only [h1, List.mem_cons, exists_eq_or_imp]
      have h1c : ¬ (c.touching = true ∧ c.enabled = true) := by
        rwa [Bool.and_eq_true] at h1
      constructor
      · rintro (h | ⟨hdes, hc⟩)
        · simp at h
        · exact ⟨hdes, Or.inr hc⟩
      · rintro ⟨hdes, (⟨ht, he, _⟩ | hc)⟩
        · exact absurd ⟨ht, he⟩ h1c
        · exact Or.inr ⟨hdes, hc⟩

theorem lazyCleanup_removes (env : Env) (s : GameState) (tr : List Event) (d h : Nat)
    (b : b2Body) (hP : env.pvalid s d = true) (hbody : (s.entities d).body = some h)
    (hlive : s.world.bodies h = some b) :
    (lazyCleanup env (some d) s tr).trace = tr ++ [Event.destroyBody d h] ∧
    ∃ t, (lazyCleanup env (some d) s tr).final = some t ∧
      (t.entities d).body = none ∧ t.world.bodies h = none ∧
      (∀ k, k ≠ h → t.world.bodies k = s.world.bodies k) ∧
      (∀ n, n ≠ d → t.entities n = s.entities n) := by
  simp only [lazyCleanup, hP, if_true, hbody, b2World.DestroyBody, hlive]
  refine ⟨trivial, _, rfl, ?_, ?_, ?_, ?_⟩
  · simp [GameState.setEntity]
  · simp [GameState.setEntity]
  · intro k hk
    simp [GameState.setEntity, hk]
  · intro n hn
    simp [GameState.setEntity, hn]

/-- C1 as written fails: the bodies of entities 1 and 2 have two fixtures each, two
touching, enabled contacts join them (one per touching fixture pair), neither entity is
marked destroyed, and the hook is invoked twice on 1 with 2 and twice on 2 with 1. -/
theorem hook_twice_for_one_pair :
    (0 : ℚ) < 1 ∧
    (exampleState [] [⟨true, true, 1, 2⟩, ⟨true, true, 1, 2⟩]).world.contactList
      = [⟨true, true, 1, 2⟩, ⟨true, true, 1, 2⟩] ∧
    ((exampleState [] [⟨true, true, 1, 2⟩, ⟨true, true, 1, 2⟩]).entities 1).destroyed = false ∧
    ((exampleState [] [⟨true, true, 1, 2⟩, ⟨true, true, 1, 2⟩]).entities 2).destroyed = false ∧
    (handleCollisions exampleEnv 1
        (exampleState [] [⟨true, true, 1, 2⟩, ⟨true, true, 1, 2⟩])).trace
      = [Event.step 1, Event.examine ⟨true, true, 1, 2⟩, Event.examine ⟨true, true, 1, 2⟩,
         Event.hook 1 2, Event.hook 2 1, Event.hook 1 2, Event.hook 2 1] ∧
    (handleCollisions exampleEnv 1
        (exampleState [] [⟨true, true, 1, 2⟩, ⟨true, true, 1, 2⟩])).trace.count
      (Event.hook 1 2) = 2 := by
  decide

theorem dispatchCollisions_acc (env : Env) (l : List Collision) :
    ∀ (t : GameState) (tr : List Event),
      dispatchCollisions env l (t, tr) = (stateAfterPairs env l t, tr ++ hookCalls env l t) := by
  induction l with
  | nil =>
    intro t tr
    simp [dispatchCollisions, stateAfterPairs, hookCalls]
  | cons c rest ih =>
    intro t tr
    unfold stateAfterPairs hookCalls
    by_cases hg : (env.pvalid t c.A && env.pvalid t c.B) = true
    · simp only [dispatchCollisions, hg, if_true]
      rw [ih, ih _ ([] ++ [Event.hook c.A c.B, Event.hook c.B c.A])]
      simp
    · simp only [dispatchCollisions, hg]
      exact ih t tr

theorem dispatchCollisions_append (env : Env) (pre l : List Collision) :
    ∀ acc : GameState × List Event,
      dispatchCollisions env (pre ++ l) acc
        = dispatchCollisions env l (dispatchCollisions env pre acc) := by
  induction pre with
  | nil => intro acc; rfl
  | cons c rest ih =>
    intro acc
    obtain ⟨t, tr⟩ := acc
    by_cases hg : (env.pvalid t c.A && env.pvalid t c.B) = true
    · simp only [List.cons_append, dispatchCollisions, hg, if_true]
      exact ih _
    · simp only [List.cons_append, dispatchCollisions, hg]
      exact ih _

theorem hookCalls_split (env : Env) (pre post : List Collision) (c : Collision)
    (t : GameState) :
    hookCalls env (pre ++ c :: post) t
      = hookCalls env pre t
        ++ (if env.pvalid (stateAfterPairs env pre t) c.A
              && env.pvalid (stateAfterPairs env pre t) c.B
            then [Event.hook c.A c.B, Event.hook c.B c.A] else [])
        ++ hookCalls env post
            (if env.pvalid (stateAfterPairs env pre t) c.A
                && env.pvalid (stateAfterPairs env pre t) c.B
             then env.collision c.B c.A (env.collision c.A c.B (stateAfterPairs env pre t))
             else stateAfterPairs env pre t) := by
  have h1 : hookCalls env (pre ++ c :: post) t
      = (dispatchCollisions env (c :: post) (dispatchCollisions env pre (t, []))).2 := by
    unfold hookCalls
    rw [dispatchCollisions_append]
  rw [h1, dispatchCollisions_acc env pre t []]
  by_cases hg : (env.pvalid (stateAfterPairs env pre t) c.A
      && env.pvalid (stateAfterPairs env pre t) c.B) = true
  · simp only [dispatchCollisions, hg, if_true]
    rw [dispatchCollisions_acc]
    simp
  · simp only [dispatchCollisions, hg, Bool.false_eq_true, if_false, List.nil_append,
      List.append_nil]
    rw [dispatchCollisions_acc]

/-- C1, amended. In a step with `delta > 0` the calls are, in this order: the simulation
step, one pass per contact of the list, the hook calls of the dispatch loop, and at most
one body removal; so no hook is invoked before the walk has finished.  The dispatch loop
goes through the recorded contacts (touching, enabled, neither participant marked
destroyed) in contact-list order: when the turn of a contact with participants (A, B)
comes, it invokes the hook on A with B and then on B with A if the references to A and B
both read non-null in the state reached then, and it invokes no hook for that contact
otherwise; the later contacts are served from the state this leaves.  So the hook is
invoked on A with B at most once per recorded contact joining A and B, and exactly once
per such contact when no reference reads as null. -/
theorem hooks_after_walk_once_per_contact (env : Env) (delta : ℚ) (s : GameState)
    (hdelta : 0 < delta) (A B : Nat) :
    (∃ cleanup : List Event,
      (handleCollisions env delta s).trace
        = Event.step delta ::
            ((afterStep env delta s).world.contactList.map Event.examine
              ++ (hookCalls env
                    (recorded (afterStep env delta s).entities
                      (afterStep env delta s).world.contactList)
                    (afterStep env delta s)
                  ++ cleanup)) ∧
      (cleanup = [] ∨ ∃ d h, cleanup = [Event.destroyBody d h])) ∧
    (∀ e ∈ hookCalls env
        (recorded (afterStep env delta s).entities (afterStep env delta s).world.contactList)
        (afterStep env delta s), ∃ a b, e = Event.hook a b) ∧
    (∀ pre c post,
      recorded (afterStep env delta s).entities (afterStep env delta s).world.contactList
        = pre ++ c :: post →
      hookCalls env
          (recorded (afterStep env delta s).entities (afterStep env delta s).world.contactList)
          (afterStep env delta s)
        = hookCalls env pre (afterStep env delta s)
          ++ (if env.pvalid (stateAfterPairs env pre (afterStep env delta s)) c.A
                && env.pvalid (stateAfterPairs env pre (afterStep env delta s)) c.B
              then [Event.hook c.A c.B, Event.hook c.B c.A] else [])
          ++ hookCalls env post
              (if env.pvalid (stateAfterPairs env pre (afterStep env delta s)) c.A
                  && env.pvalid (stateAfterPairs env pre (afterStep env delta s)) c.B
               then env.collision c.B c.A
                 (env.collision c.A c.B (stateAfterPairs env pre (afterStep env delta s)))
               else stateAfterPairs env pre (afterStep env delta s))) ∧
    ((handleCollisions env delta s).trace.count (Event.hook A B)
      ≤ (recorded (afterStep env delta s).entities
            (afterStep env delta s).world.contactList).count ⟨A, B⟩
        + (recorded (afterStep env delta s).entities
            (afterStep env delta s).world.contactList).count ⟨B, A⟩) ∧
    ((∀ t n, env.pvalid t n = true) →
      (handleCollisions env delta s).trace.count (Event.hook A B)
        = (recorded (afterStep env delta s).entities
              (afterStep env delta s).world.contactList).count ⟨A, B⟩
          + (recorded (afterStep env delta s).entities
              (afterStep env delta s).world.contactList).count ⟨B, A⟩) := by
  obtain ⟨hooks, cleanup, h1, h2, h3, h4, h5, h6⟩ := handleCollisions_shape env delta s hdelta
  have hhooks : hooks = hookCalls env
      (recorded (afterStep env delta s).entities (afterStep env delta s).world.contactList)
      (afterStep env delta s) := by
    have e1 : (afterDispatch env delta s).2
        = (afterWalk env delta s).trace ++ hookCalls env
            (recorded (afterStep env delta s).entities
              (afterStep env delta s).world.contactList) (afterStep env delta s) := by
      unfold afterDispatch
      rw [dispatchCollisions_acc, afterWalk_collisions]
    rw [e1, afterWalk_trace] at h1
    simpa using h1.symm
  subst hhooks
  have htr : (handleCollisions env delta s).trace
      = Event.step delta ::
          ((afterStep env delta s).world.contactList.map Event.examine
            ++ (hookCalls env
                  (recorded (afterStep env delta s).entities
                    (afterStep env delta s).world.contactList)
                  (afterStep env delta s)
                ++ cleanup)) := by
    rw [h2, h1]
    simp
  have hcount : (handleCollisions env delta s).trace.count (Event.hook A B)
      = (hookCalls env
          (recorded (afterStep env delta s).entities (afterStep env delta s).world.contactList)
          (afterStep env delta s)).count (Event.hook A B) := by
    rw [htr, List.count_cons, List.count_append, List.count_append, count_hook_examine,
      count_hook_cleanup cleanup A B h6]
    simp
  refine ⟨⟨cleanup, htr, h6⟩, h3, ?_, ?_, ?_⟩
  · intro pre c post hsplit
    rw [hsplit]
    exact hookCalls_split env pre post c (afterStep env delta s)
  · rw [hcount]
    exact h4 A B
  · intro hP
    rw [hcount]
    exact h5 hP A B

/-- Witness of C1 (amended): contacts (1,2), (2,3), (3,4); references read as null once the
entity is marked destroyed, and the hook of entity 1 marks its target destroyed.  The
contact (1,2) is served, entity 2 is destroyed by it, the contact (2,3) gets no hook, and
the contact (3,4) is served at its turn. -/
theorem hooks_after_walk_once_per_contact_witness :
    (0 : ℚ) < 1 ∧
    hookCalls destroyingEnv
        (recorded
          (afterStep destroyingEnv 1 (exampleState []
            [⟨true, true, 1, 2⟩, ⟨true, true, 2, 3⟩, ⟨true, true, 3, 4⟩])).entities
          (afterStep destroyingEnv 1 (exampleState []
            [⟨true, true, 1, 2⟩, ⟨true, true, 2, 3⟩, ⟨true, true, 3, 4⟩])).world.contactList)
        (afterStep destroyingEnv 1 (exampleState []
          [⟨true, true, 1, 2⟩, ⟨true, true, 2, 3⟩, ⟨true, true, 3, 4⟩]))
      = [Event.hook 1 2, Event.hook 2 1, Event.hook 3 4, Event.hook 4 3] :=
  ⟨by norm_num,
    ((hooks_after_walk_once_per_contact destroyingEnv 1
        (exampleState [] [⟨true, true, 1, 2⟩, ⟨true, true, 2, 3⟩, ⟨true, true, 3, 4⟩])
        (by norm_num) 3 4).2.2.1 [⟨1, 2⟩, ⟨2, 3⟩] ⟨3, 4⟩ [] (by decide)).trans (by decide)⟩

/-- C4. In a step with `delta > 0`, if A or B is marked destroyed when the walk reads the
contacts, no hook is invoked on A with B or on B with A; and a touching, enabled contact is
recorded for dispatch if and only if neither of its participants is marked destroyed. -/
theorem no_hook_for_destroyed_participant (env : Env) (delta : ℚ) (s : GameState)
    (hdelta : 0 < delta) :
    (∀ A B, (((afterStep env delta s).entities A).destroyed = true ∨
        ((afterStep env delta s).entities B).destroyed = true) →
      Event.hook A B ∉ (handleCollisions env delta s).trace ∧
      Event.hook B A ∉ (handleCollisions env delta s).trace) ∧
    (∀ c ∈ (afterStep env delta s).world.contactList, c.touching = true → c.enabled = true →
      ((⟨c.userDataA, c.userDataB⟩ : Collision) ∈ (afterWalk env delta s).collisions ↔
        (((afterStep env delta s).entities c.userDataA).destroyed = false ∧
         ((afterStep env delta s).entities c.userDataB).destroyed = false))) := by
  obtain ⟨hooks, cleanup, h1, h2, h3, h4, h5, h6⟩ := handleCollisions_shape env delta s hdelta
  have hnot : ∀ A B, (((afterStep env delta s).entities A).destroyed = true ∨
        ((afterStep env delta s).entities B).destroyed = true) →
      (⟨A, B⟩ : Collision) ∉ recorded (afterStep env delta s).entities
          (afterStep env delta s).world.contactList := by
    intro A B hd hmem
    rw [mem_recorded] at hmem
    obtain ⟨c, _, _, _, hA, hB, eA, eB⟩ := hmem
    rw [eA] at hA
    rw [eB] at hB
    rcases hd with hd | hd
    · rw [hA] at hd; cases hd
    · rw [hB] at hd; cases hd
  have hhook : ∀ A B, (((afterStep env delta s).entities A).destroyed = true ∨
        ((afterStep env delta s).entities B).destroyed = true) →
      Event.hook A B ∉ (handleCollisions env delta s).trace := by
    intro A B hd hmem
    rw [h2, h1] at hmem
    have hin : Event.hook A B ∈ hooks := by
      simp only [List.mem_cons, List.mem_append, List.mem_map] at hmem
      rcases hmem with (h | ⟨c, _, h⟩ | h) | h
      · cases h
      · cases h
      · exact h
      · rcases h6 with h6 | ⟨d, k, h6⟩ <;> subst h6 <;> simp at h
    have hpos : 0 < hooks.count (Event.hook A B) := List.count_pos_iff.mpr hin
    have hle := h4 A B
    rw [List.count_eq_zero_of_not_mem (hnot A B hd),
      List.count_eq_zero_of_not_mem (hnot B A hd.symm)] at hle
    omega
  refine ⟨fun A B hd => ⟨hhook A B hd, hhook B A hd.symm⟩, ?_⟩
  intro c hc ht he
  rw [afterWalk_collisions, mem_recorded]
  constructor
  · rintro ⟨c2, _, _, _, hA, hB, eA, eB⟩
    rw [eA] at hA
    rw [eB] at hB
    exact ⟨hA, hB⟩
  · rintro ⟨hA, hB⟩
    exact ⟨c, hc, ht, he, hA, hB, rfl, rfl⟩

/-- Witness of C4: entity 1 is marked destroyed and touches entity 2. -/
theorem no_hook_for_destroyed_participant_witness :
    (0 : ℚ) < 1 ∧
    Event.hook 1 2 ∉ (handleCollisions exampleEnv 1
        (exampleState [1] [⟨true, true, 1, 2⟩, ⟨true, true, 3, 4⟩])).trace ∧
    Event.hook 2 1 ∉ (handleCollisions exampleEnv 1
        (exampleState [1] [⟨true, true, 1, 2⟩, ⟨true, true, 3, 4⟩])).trace :=
  ⟨by norm_num,
    (no_hook_for_destroyed_participant exampleEnv 1
      (exampleState [1] [⟨true, true, 1, 2⟩, ⟨true, true, 3, 4⟩]) (by norm_num)).1 1 2
      (Or.inl (by decide))⟩

/-- C3 as written fails: entities 1 and 3 are marked destroyed and each is a participant
of a touching, enabled contact; the step removes the body of entity 3 only, and entity 1
returns from the step with its body reference and its body in the simulation. -/
theorem earlier_destroyed_participant_keeps_body :
    (0 : ℚ) < 1 ∧
    ((exampleState [1, 3] [⟨true, true, 1, 2⟩, ⟨true, true, 3, 4⟩]).entities 1).destroyed
      = true ∧
    (⟨true, true, 1, 2⟩ : b2Contact)
      ∈ (afterStep exampleEnv 1
          (exampleState [1, 3] [⟨true, true, 1, 2⟩, ⟨true, true, 3, 4⟩])).world.contactList ∧
    (handleCollisions exampleEnv 1
        (exampleState [1, 3] [⟨true, true, 1, 2⟩, ⟨true, true, 3, 4⟩])).trace
      = [Event.step 1, Event.examine ⟨true, true, 1, 2⟩, Event.examine ⟨true, true, 3, 4⟩,
         Event.destroyBody 3 3] ∧
    ((handleCollisions exampleEnv 1
        (exampleState [1, 3] [⟨true, true, 1, 2⟩, ⟨true, true, 3, 4⟩])).final.map
      (fun t => ((t.entities 1).body, (t.world.bodies 1).isSome, (t.entities 3).body,
        (t.world.bodies 3).isSome)))
      = some (some 1, true, none, false) := by
  decide

/-- C3, amended. In a step with `delta > 0`, let `d` be the last destroyed participant of a
touching, enabled contact that the walk meets (in contact-list order, owner of fixture B
after owner of fixture A).  If at the cleanup the reference to `d` reads non-null and `d`
has a body in the simulation, then the step returns, that body has been removed from the
simulation and the body reference of `d` is null. -/
theorem last_destroyed_participant_body_removed (env : Env) (delta : ℚ) (s : GameState)
    (hdelta : 0 < delta) (d h : Nat) (b : b2Body)
    (hlast : (destroyedParticipants (afterStep env delta s).entities
      (afterStep env delta s).world.contactList).getLast? = some d)
    (hP : env.pvalid (afterDispatch env delta s).1 d = true)
    (hbody : ((afterDispatch env delta s).1.entities d).body = some h)
    (hlive : (afterDispatch env delta s).1.world.bodies h = some b) :
    ((afterStep env delta s).entities d).destroyed = true ∧
    (∃ c ∈ (afterStep env delta s).world.contactList, c.touching = true ∧ c.enabled = true ∧
      (c.userDataA = d ∨ c.userDataB = d)) ∧
    ∃ t, (handleCollisions env delta s).final = some t ∧
      (t.entities d).body = none ∧ t.world.bodies h = none := by
  have hmem := (mem_destroyedParticipants (afterStep env delta s).entities
    (afterStep env delta s).world.contactList d).mp (List.mem_of_getLast?_eq_some hlast)
  obtain ⟨_, t, ht, h1, h2, _, _⟩ :=
    lazyCleanup_removes env (afterDispatch env delta s).1 (afterDispatch env delta s).2 d h b
      hP hbody hlive
  refine ⟨hmem.1, hmem.2, t, ?_, h1, h2⟩
  unfold handleCollisions
  rw [if_neg (not_le.mpr hdelta), afterWalk_destroy, hlast]
  exact ht

/-- Witness of C3 (amended): entities 1 and 3 are marked destroyed; entity 3 is met last. -/
theorem last_destroyed_participant_body_removed_witness :
    ∃ t, (handleCollisions exampleEnv 1
        (exampleState [1, 3] [⟨true, true, 1, 2⟩, ⟨true, true, 3, 4⟩])).final = some t ∧
      (t.entities 3).body = none ∧ t.world.bodies 3 = none :=
  (last_destroyed_participant_body_removed exampleEnv 1
    (exampleState [1, 3] [⟨true, true, 1, 2⟩, ⟨true, true, 3, 4⟩]) (by norm_num) 3 3
    (exampleBody 3) (by decide) (by decide) (by decide) rfl).2.2

theorem windowLen_eq (env : Env) (N o : Nat) (hM : env.b2_maxPolygonVertices < UINT_RANGE) :
    windowLen env N o = min env.b2_maxPolygonVertices (N - o + 1) := by
  unfold windowLen
  rw [Nat.mod_eq_of_lt hM]
  split_ifs with h
  · rw [Nat.mod_eq_of_lt (lt_trans h hM)]
    omega
  · omega

theorem windowPoints_eq (shapeList : List Vector2f) (o len : Nat)
    (h1 : o + len ≤ shapeList.length + 1) (h2 : 1 ≤ len)
    (hR : shapeList.length ≤ UINT_RANGE) :
    windowPoints shapeList o len
      = v2b (shapeList.getD 0 ⟨0, 0⟩) ::
          ((shapeList.take (o + len - 1)).drop o).map v2b := by
  unfold windowPoints
  congr 1
  apply List.ext_getElem?
  intro n
  by_cases hn : n < len - 1
  · have hlt : n + o < UINT_RANGE := by omega
    have hlt2 : o + n < shapeList.length := by omega
    have hlt3 : o + n < o + len - 1 := by omega
    simp only [List.getElem?_map, List.getElem?_range hn, Option.map_some',
      Nat.mod_eq_of_lt hlt, List.getElem?_drop, List.getElem?_take_of_lt hlt3,
      List.getElem?_eq_getElem hlt2, List.getD_eq_getElem?_getD]
    simp [Nat.add_comm n o, List.getElem?_eq_getElem hlt2]
  · have e1 : ((List.range (len - 1)).map
        (fun n => v2b (shapeList.getD ((n + o) % UINT_RANGE) ⟨0, 0⟩)))[n]? = none := by
      apply List.getElem?_eq_none
      simp
      omega
    have e2 : (((shapeList.take (o + len - 1)).drop o).map v2b)[n]? = none := by
      apply List.getElem?_eq_none
      simp
      omega
    rw [e1, e2]

theorem lt_windowCount (N M k : Nat) (hM : 3 ≤ M) :
    k < windowCount N M ↔ windowStart M k + 2 ≤ N := by
  unfold windowCount windowStart
  have hpos : 0 < M - 2 := by omega
  split_ifs with h
  · constructor
    · intro hk; omega
    · intro hk
      have : 0 ≤ k * (M - 2) := Nat.zero_le _
      omega
  · rw [Nat.lt_succ_iff, Nat.le_div_iff_mul_le hpos]
    omega

theorem destroyFixtures_eq (l : List b2Fixture) : destroyFixtures l = [] := by
  induction l with
  | nil => rfl
  | cons f l ih => exact ih

theorem createBody_spec (s : GameState) (self : Nat) (shape : b2Shape)
    (hwf : ∀ h, (s.entities self).body = some h → ∃ b, s.world.bodies h = some b) :
    ∃ s2, createBody s self shape = some s2 ∧
      (∃ h b, (s2.entities self).body = some h ∧ s2.world.bodies h = some b ∧
        b.fixtureList.length = 1) ∧
      (∀ h, (s.entities self).body = some h → (s2.entities self).body = some h) := by
  unfold createBody
  cases hb : (s.entities self).body with
  | some h =>
    obtain ⟨b, hlive⟩ := hwf h hb
    simp only [hlive]
    refine ⟨_, rfl, ⟨h, _, hb, setBody_bodies_self _ _ _, ?_⟩, ?_⟩
    · simp [b2Body.CreateFixture, destroyFixtures_eq]
    · intro h2 e
      rw [← e]
      exact hb
  | none =>
    simp [b2World.CreateBody, GameState.setEntity, b2World.setBody, b2Body.CreateFixture]

theorem fixtureCount_of_live (s : GameState) (self h : Nat) (b : b2Body)
    (hb : (s.entities self).body = some h) (hl : s.world.bodies h = some b) :
    fixtureCount s self = b.fixtureList.length := by
  simp [fixtureCount, hb, hl]

theorem buildWindow_spec (env : Env) (shapeList : List Vector2f) (self offset len : Nat)
    (s : GameState)
    (h0 : offset = 1 → ∀ h, (s.entities self).body = some h → ∃ b, s.world.bodies h = some b)
    (h1 : offset ≠ 1 → ∃ h b, (s.entities self).body = some h ∧ s.world.bodies h = some b) :
    ∃ s2, buildWindow env shapeList self offset len s = some s2 ∧
      (∃ h b, (s2.entities self).body = some h ∧ s2.world.bodies h = some b) ∧
      fixtureCount s2 self = (if offset = 1 then 0 else fixtureCount s self) + 1 := by
  unfold buildWindow
  have hs1 : ∃ s1 : GameState, (match env.polygonSet (windowPoints shapeList offset len) with
      | some _ => s
      | none => destroy s self) = s1 ∧ (s1.entities self).body = (s.entities self).body ∧
      s1.world = s.world := by
    cases env.polygonSet (windowPoints shapeList offset len) with
    | some vs => exact ⟨s, rfl, rfl, rfl⟩
    | none => exact ⟨destroy s self, rfl, by simp [destroy, GameState.setEntity], rfl⟩
  obtain ⟨s1, e1, hbody, hworld⟩ := hs1
  simp only [e1]
  by_cases ho : offset = 1
  · simp only [ho, if_true]
    obtain ⟨s2, c1, ⟨h, b, c2, c3, c4⟩, _⟩ := createBody_spec s1 self _ (by
      intro h hh
      rw [hbody] at hh
      rw [hworld]
      exact h0 ho h hh)
    exact ⟨s2, c1, ⟨h, b, c2, c3⟩, by rw [fixtureCount_of_live s2 self h b c2 c3, c4]⟩
  · obtain ⟨h, b, hb, hl⟩ := h1 ho
    have hb1 : (s1.entities self).body = some h := by rw [hbody]; exact hb
    have hl1 : s1.world.bodies h = some b := by rw [hworld]; exact hl
    simp only [ho, if_false, hb1, hl1]
    refine ⟨_, rfl, ⟨h, _, hb1, setBody_bodies_self _ _ _⟩, ?_⟩
    simp [fixtureCount, hb1, hb, hl, b2World.setBody, b2Body.CreateFixture]

theorem windowStart_eq_one (M k : Nat) (hM : 3 ≤ M) : windowStart M k = 1 ↔ k = 0 := by
  unfold windowStart
  constructor
  · intro h
    have h2 : k * (M - 2) = 0 := by omega
    rcases Nat.mul_eq_zero.mp h2 with h3 | h3
    · exact h3
    · omega
  · intro h
    subst h
    simp

theorem windowStart_succ (M k : Nat) :
    windowStart M (k + 1) = windowStart M k + (M - 2) := by
  unfold windowStart
  rw [Nat.succ_mul]
  omega

theorem windowPoints_specWindow (env : Env) (shapeList : List Vector2f) (k : Nat)
    (hM : 3 ≤ env.b2_maxPolygonVertices)
    (hN : shapeList.length + env.b2_maxPolygonVertices ≤ UINT_RANGE)
    (hk : windowStart env.b2_maxPolygonVertices k + 2 ≤ shapeList.length) :
    windowPoints shapeList (windowStart env.b2_maxPolygonVertices k)
        (windowLen env shapeList.length (windowStart env.b2_maxPolygonVertices k))
      = specWindow shapeList env.b2_maxPolygonVertices k := by
  rw [windowLen_eq env _ _ (by omega), windowPoints_eq shapeList _ _ (by omega) (by omega)
    (by omega)]
  unfold specWindow windowEnd
  have e : windowStart env.b2_maxPolygonVertices k
      + min env.b2_maxPolygonVertices
          (shapeList.length - windowStart env.b2_maxPolygonVertices k + 1) - 1
      = min (shapeList.length - 1)
          (windowStart env.b2_maxPolygonVertices k + env.b2_maxPolygonVertices - 2) + 1 := by
    omega
  rw [e]

theorem setCollisionShapeLoop_closed (env : Env) (shapeList : List Vector2f) (self : Nat)
    (hM : 3 ≤ env.b2_maxPolygonVertices)
    (hN : shapeList.length + env.b2_maxPolygonVertices ≤ UINT_RANGE) :
    ∀ (fuel k : Nat) (s : GameState) (built : List (List b2Vec2)),
      shapeList.length + 1 - windowStart env.b2_maxPolygonVertices k < fuel →
      (k = 0 → ∀ h, (s.entities self).body = some h → ∃ b, s.world.bodies h = some b) →
      (k ≠ 0 → ∃ h b, (s.entities self).body = some h ∧ s.world.bodies h = some b) →
      ∃ s2, setCollisionShapeLoop env shapeList self fuel
            (windowStart env.b2_maxPolygonVertices k) s built
          = some (s2, built ++
              (List.range' k (windowCount shapeList.length env.b2_maxPolygonVertices - k)).map
                (specWindow shapeList env.b2_maxPolygonVertices)) ∧
        (windowCount shapeList.length env.b2_maxPolygonVertices ≤ k → s2 = s) ∧
        (k < windowCount shapeList.length env.b2_maxPolygonVertices →
          (∃ h b, (s2.entities self).body = some h ∧ s2.world.bodies h = some b) ∧
          fixtureCount s2 self = (if k = 0 then 0 else fixtureCount s self)
            + (windowCount shapeList.length env.b2_maxPolygonVertices - k)) := by
  intro fuel
  induction fuel with
  | zero => intro k s built hfuel; omega
  | succ fuel ih =>
    intro k s built hfuel h0 h1
    have hcount := lt_windowCount shapeList.length env.b2_maxPolygonVertices k hM
    rw [setCollisionShapeLoop]
    by_cases ho : windowStart env.b2_maxPolygonVertices k < shapeList.length
    · rw [if_pos ho]
      have hlen := windowLen_eq env shapeList.length
        (windowStart env.b2_maxPolygonVertices k) (by omega)
      by_cases h3 : windowLen env shapeList.length
          (windowStart env.b2_maxPolygonVertices k) < 3
      · have hK : windowCount shapeList.length env.b2_maxPolygonVertices ≤ k := by
          rw [← not_lt, hcount]
          omega
        simp only [h3, if_true]
        refine ⟨s, ?_, fun _ => rfl, fun hk => absurd hk (not_lt.mpr hK)⟩
        rw [Nat.sub_eq_zero_of_le hK]
        simp
      · have hk2 : windowStart env.b2_maxPolygonVertices k + 2 ≤ shapeList.length := by
          omega
        have hk : k < windowCount shapeList.length env.b2_maxPolygonVertices := hcount.mpr hk2
        obtain ⟨s1, b1, b2, b3⟩ := buildWindow_spec env shapeList self
          (windowStart env.b2_maxPolygonVertices k)
          (windowLen env shapeList.length (windowStart env.b2_maxPolygonVertices k)) s
          (fun e => h0 ((windowStart_eq_one _ k hM).mp e))
          (fun e => h1 (fun e2 => e ((windowStart_eq_one _ k hM).mpr e2)))
        have hnext : (windowStart env.b2_maxPolygonVertices k
            + (env.b2_maxPolygonVertices - 2)) % UINT_RANGE
            = windowStart env.b2_maxPolygonVertices (k + 1) := by
          rw [windowStart_succ, Nat.mod_eq_of_lt (by omega)]
        simp only [h3, if_false, b1, hnext,
          windowPoints_specWindow env shapeList k hM hN hk2]
        obtain ⟨s2, c1, c2, c3⟩ := ih (k + 1) s1
          (built ++ [specWindow shapeList env.b2_maxPolygonVertices k])
          (by rw [windowStart_succ]; omega) (fun e => absurd e (Nat.succ_ne_zero k))
          (fun _ => b2)
        refine ⟨s2, ?_, fun hK => absurd hk (not_lt.mpr hK), fun _ => ?_⟩
        · rw [c1]
          have hsplit : windowCount shapeList.length env.b2_maxPolygonVertices - k
              = (windowCount shapeList.length env.b2_maxPolygonVertices - (k + 1)) + 1 := by
            omega
          rw [hsplit, List.range'_succ]
          simp
        · by_cases hlast : k + 1 < windowCount shapeList.length env.b2_maxPolygonVertices
          · obtain ⟨d1, d2⟩ := c3 hlast
            refine ⟨d1, ?_⟩
            rw [d2, if_neg (Nat.succ_ne_zero k), b3]
            simp only [windowStart_eq_one _ k hM]
            omega
          · have e2 := c2 (not_lt.mp hlast)
            subst e2
            refine ⟨b2, ?_⟩
            rw [b3]
            simp only [windowStart_eq_one _ k hM]
            omega
    · rw [if_neg ho]
      have hK : windowCount shapeList.length env.b2_maxPolygonVertices ≤ k := by
        rw [← not_lt, hcount]
        omega
      refine ⟨s, ?_, fun _ => rfl, fun hk => absurd hk (not_lt.mpr hK)⟩
      rw [Nat.sub_eq_zero_of_le hK]
      simp

theorem windowCount_eq_ceil (N M : Nat) (hN : 3 ≤ N) (hM : 3 ≤ M) :
    (windowCount N M : ℤ) = ⌈((N : ℚ) - 2) / ((M : ℚ) - 2)⌉ := by
  symm
  rw [Int.ceil_eq_iff]
  unfold windowCount
  rw [if_neg (by omega)]
  have hd : 0 < M - 2 := by omega
  have h1 : (M - 2) * ((N - 3) / (M - 2)) ≤ N - 3 := Nat.mul_div_le _ _
  have h2 : N - 3 < (M - 2) * ((N - 3) / (M - 2) + 1) := Nat.lt_mul_div_succ _ hd
  generalize (N - 3) / (M - 2) = q at h1 h2 ⊢
  obtain ⟨n, rfl⟩ : ∃ n, N = n + 3 := ⟨N - 3, by omega⟩
  obtain ⟨d, rfl⟩ : ∃ d, M = d + 3 := ⟨M - 3, by omega⟩
  simp only [Nat.add_sub_cancel] at h1 h2
  have e1 : d + 3 - 2 = d + 1 := by omega
  rw [e1] at h1 h2
  have h1q : ((d : ℚ) + 1) * q ≤ n := by exact_mod_cast h1
  have h2q : (n : ℚ) + 1 ≤ ((d : ℚ) + 1) * (q + 1) := by exact_mod_cast Nat.succ_le_of_lt h2
  have hdq : (0 : ℚ) < (d : ℚ) + 1 := by positivity
  have eN : (((n + 3 : ℕ) : ℚ) - 2) = n + 1 := by push_cast; ring
  have eM : (((d + 3 : ℕ) : ℚ) - 2) = d + 1 := by push_cast; ring
  rw [eN, eM]
  push_cast
  constructor
  · rw [lt_div_iff₀ hdq]
    linarith
  · rw [div_le_iff₀ hdq]
    linarith

theorem setCollisionShapeTraced_closed (env : Env) (fuel : Nat) (s : GameState) (self : Nat)
    (shapeList : List Vector2f)
    (hM : 3 ≤ env.b2_maxPolygonVertices)
    (hR : shapeList.length + env.b2_maxPolygonVertices ≤ UINT_RANGE)
    (hfuel : shapeList.length < fuel)
    (hwf : ∀ h, (s.entities self).body = some h → ∃ b, s.world.bodies h = some b) :
    ∃ t, setCollisionShapeTraced env fuel s self shapeList
        = some (t, (List.range (windowCount shapeList.length env.b2_maxPolygonVertices)).map
            (specWindow shapeList env.b2_maxPolygonVertices)) ∧
      (windowCount shapeList.length env.b2_maxPolygonVertices = 0 → t = s) ∧
      (0 < windowCount shapeList.length env.b2_maxPolygonVertices →
        (∃ h b, (t.entities self).body = some h ∧ t.world.bodies h = some b) ∧
        fixtureCount t self = windowCount shapeList.length env.b2_maxPolygonVertices) := by
  obtain ⟨t, h1, h2, h3⟩ := setCollisionShapeLoop_closed env shapeList self hM hR fuel 0 s []
    (by simp [windowStart]; omega) (fun _ => hwf) (fun e => absurd rfl e)
  refine ⟨t, ?_, fun e => h2 (by omega), fun hpos => ?_⟩
  · unfold setCollisionShapeTraced
    have e : windowStart env.b2_maxPolygonVertices 0 = 1 := by simp [windowStart]
    rw [e] at h1
    rw [h1, List.range_eq_range']
    simp
  · obtain ⟨a, b⟩ := h3 hpos
    exact ⟨a, by simpa using b⟩

/-- C5 as written fails: a chain of N = 8 points with the limit M = 8 gives one fixture,
not `ceil((8-1)/(8-2)) = 2`. -/
theorem octagon_builds_one_fixture :
    octagon.length = 8 ∧ exampleEnv.b2_maxPolygonVertices = 8 ∧
    (setCollisionShapeTraced exampleEnv 9 emptyState 0 octagon).map
        (fun r => (r.2.length, fixtureCount r.1 0)) = some (1, 1) ∧
    ⌈((8 : ℚ) - 1) / ((8 : ℚ) - 2)⌉ = 2 := by
  refine ⟨by decide, by decide, by decide, ?_⟩
  rw [Int.ceil_eq_iff]
  norm_num

/-- C5, amended. For a chain of N >= 3 points and the limit M >= 3 (sizes in the range of
`unsigned int`, the body reference of the entity null or pointing to a body of the world),
`setCollisionShape` returns, it has handed `ceil((N-2)/(M-2))` polygons to the engine, and
the body of the entity carries that many fixtures. -/
theorem fixtures_built_count (env : Env) (fuel : Nat) (s : GameState) (self : Nat)
    (shapeList : List Vector2f)
    (hM : 3 ≤ env.b2_maxPolygonVertices)
    (hR : shapeList.length + env.b2_maxPolygonVertices ≤ UINT_RANGE)
    (hN : 3 ≤ shapeList.length) (hfuel : shapeList.length < fuel)
    (hwf : ∀ h, (s.entities self).body = some h → ∃ b, s.world.bodies h = some b) :
    ∃ t built, setCollisionShapeTraced env fuel s self shapeList = some (t, built) ∧
      (built.length : ℤ)
        = ⌈((shapeList.length : ℚ) - 2) / ((env.b2_maxPolygonVertices : ℚ) - 2)⌉ ∧
      (fixtureCount t self : ℤ)
        = ⌈((shapeList.length : ℚ) - 2) / ((env.b2_maxPolygonVertices : ℚ) - 2)⌉ := by
  obtain ⟨t, h1, _, h3⟩ :=
    setCollisionShapeTraced_closed env fuel s self shapeList hM hR hfuel hwf
  have hpos : 0 < windowCount shapeList.length env.b2_maxPolygonVertices := by
    rw [lt_windowCount _ _ _ hM]
    simp [windowStart]
    omega
  refine ⟨t, _, h1, ?_, ?_⟩
  · rw [← windowCount_eq_ceil _ _ hN hM]
    simp
  · rw [← windowCount_eq_ceil _ _ hN hM, (h3 hpos).2]

/-- Witness of C5 (amended): the octagon, N = 8 and M = 8. -/
theorem fixtures_built_count_witness :
    ∃ t built, setCollisionShapeTraced exampleEnv 9 emptyState 0 octagon = some (t, built) ∧
      (built.length : ℤ)
        = ⌈((octagon.length : ℚ) - 2) / ((exampleEnv.b2_maxPolygonVertices : ℚ) - 2)⌉ ∧
      (fixtureCount t 0 : ℤ)
        = ⌈((octagon.length : ℚ) - 2) / ((exampleEnv.b2_maxPolygonVertices : ℚ) - 2)⌉ :=
  fixtures_built_count exampleEnv 9 emptyState 0 octagon (by decide) (by decide) (by decide)
    (by decide) (fun h e => by simp [emptyState] at e)

theorem createBody_fixtures (s : GameState) (self : Nat) (shape : b2Shape)
    (hwf : ∀ h, (s.entities self).body = some h → ∃ b, s.world.bodies h = some b) :
    ∃ s2, createBody s self shape = some s2 ∧
      (∃ h b, (s2.entities self).body = some h ∧ s2.world.bodies h = some b) ∧
      bodyFixtures s2 self
        = [{ shape := shape, density := 1, friction := 1 / 10,
             isSensor := !(s.entities self).enablePhysics }] ∧
      (s2.entities self).enablePhysics = (s.entities self).enablePhysics := by
  unfold createBody
  cases hb : (s.entities self).body with
  | some h =>
    obtain ⟨b, hlive⟩ := hwf h hb
    simp only [hlive]
    refine ⟨_, rfl, ⟨h, _, hb, setBody_bodies_self _ _ _⟩, ?_, rfl⟩
    simp [bodyFixtures, hb, b2World.setBody, b2Body.CreateFixture, destroyFixtures_eq]
  | none =>
    simp [b2World.CreateBody, GameState.setEntity, b2World.setBody, b2Body.CreateFixture,
      bodyFixtures]

theorem buildWindow_fixtures (env : Env) (shapeList : List Vector2f) (self offset len : Nat)
    (s : GameState)
    (h0 : offset = 1 → ∀ h, (s.entities self).body = some h → ∃ b, s.world.bodies h = some b)
    (h1 : offset ≠ 1 → ∃ h b, (s.entities self).body = some h ∧ s.world.bodies h = some b) :
    ∃ s2, buildWindow env shapeList self offset len s = some s2 ∧
      (∃ h b, (s2.entities self).body = some h ∧ s2.world.bodies h = some b) ∧
      bodyFixtures s2 self
        = windowFixture env (!(s.entities self).enablePhysics)
            (windowPoints shapeList offset len)
          :: (if offset = 1 then [] else bodyFixtures s self) ∧
      (s2.entities self).enablePhysics = (s.entities self).enablePhysics := by
  unfold buildWindow
  have hs1 : ∃ s1 : GameState, (match env.polygonSet (windowPoints shapeList offset len) with
      | some _ => s
      | none => destroy s self) = s1 ∧ (s1.entities self).body = (s.entities self).body ∧
      s1.world = s.world ∧ (s1.entities self).enablePhysics = (s.entities self).enablePhysics := by
    cases env.polygonSet (windowPoints shapeList offset len) with
    | some vs => exact ⟨s, rfl, rfl, rfl, rfl⟩
    | none =>
      exact ⟨destroy s self, rfl, by simp [destroy, GameState.setEntity], rfl,
        by simp [destroy, GameState.setEntity]⟩
  obtain ⟨s1, e1, hbody, hworld, hphys⟩ := hs1
  simp only [e1]
  by_cases ho : offset = 1
  · simp only [ho, if_true]
    obtain ⟨s2, c1, c2, c3, c4⟩ := createBody_fixtures s1 self _ (by
      intro h hh
      rw [hbody] at hh
      rw [hworld]
      exact h0 ho h hh)
    refine ⟨s2, c1, c2, ?_, c4.trans hphys⟩
    rw [c3, hphys]
    rfl
  · obtain ⟨h, b, hb, hl⟩ := h1 ho
    have hb1 : (s1.entities self).body = some h := by rw [hbody]; exact hb
    have hl1 : s1.world.bodies h = some b := by rw [hworld]; exact hl
    simp only [ho, if_false, hb1, hl1]
    refine ⟨_, rfl, ⟨h, _, hb1, setBody_bodies_self _ _ _⟩, ?_, hphys⟩
    simp [bodyFixtures, hb1, hb, hl, b2World.setBody, b2Body.CreateFixture, hphys,
      windowFixture]

theorem setCollisionShapeLoop_fixtures (env : Env) (shapeList : List Vector2f) (self : Nat)
    (hM : 3 ≤ env.b2_maxPolygonVertices)
    (hN : shapeList.length + env.b2_maxPolygonVertices ≤ UINT_RANGE) :
    ∀ (fuel k : Nat) (s : GameState) (built : List (List b2Vec2)),
      shapeList.length + 1 - windowStart env.b2_maxPolygonVertices k < fuel →
      (k = 0 → ∀ h, (s.entities self).body = some h → ∃ b, s.world.bodies h = some b) →
      (k ≠ 0 → ∃ h b, (s.entities self).body = some h ∧ s.world.bodies h = some b) →
      ∃ s2, setCollisionShapeLoop env shapeList self fuel
            (windowStart env.b2_maxPolygonVertices k) s built
          = some (s2, built ++
              (List.range' k (windowCount shapeList.length env.b2_maxPolygonVertices - k)).map
                (specWindow shapeList env.b2_maxPolygonVertices)) ∧
        (windowCount shapeList.length env.b2_maxPolygonVertices ≤ k → s2 = s) ∧
        (k < windowCount shapeList.length env.b2_maxPolygonVertices →
          (∃ h b, (s2.entities self).body = some h ∧ s2.world.bodies h = some b) ∧
          bodyFixtures s2 self
            = ((List.range' k
                  (windowCount shapeList.length env.b2_maxPolygonVertices - k)).map
                (fun j => windowFixture env (!(s.entities self).enablePhysics)
                  (specWindow shapeList env.b2_maxPolygonVertices j))).reverse
              ++ (if k = 0 then [] else bodyFixtures s self)) := by
  intro fuel
  induction fuel with
  | zero => intro k s built hfuel; omega
  | succ fuel ih =>
    intro k s built hfuel h0 h1
    have hcount := lt_windowCount shapeList.length env.b2_maxPolygonVertices k hM
    rw [setCollisionShapeLoop]
    by_cases ho : windowStart env.b2_maxPolygonVertices k < shapeList.length
    · rw [if_pos ho]
      have hlen := windowLen_eq env shapeList.length
        (windowStart env.b2_maxPolygonVertices k) (by omega)
      by_cases h3 : windowLen env shapeList.length
          (windowStart env.b2_maxPolygonVertices k) < 3
      · have hK : windowCount shapeList.length env.b2_maxPolygonVertices ≤ k := by
          rw [← not_lt, hcount]
          omega
        simp only [h3, if_true]
        refine ⟨s, ?_, fun _ => rfl, fun hk => absurd hk (not_lt.mpr hK)⟩
        rw [Nat.sub_eq_zero_of_le hK]
        simp
      · have hk2 : windowStart env.b2_maxPolygonVertices k + 2 ≤ shapeList.length := by
          omega
        have hk : k < windowCount shapeList.length env.b2_maxPolygonVertices := hcount.mpr hk2
        obtain ⟨s1, b1, b2, b3, b4⟩ := buildWindow_fixtures env shapeList self
          (windowStart env.b2_maxPolygonVertices k)
          (windowLen env shapeList.length (windowStart env.b2_maxPolygonVertices k)) s
          (fun e => h0 ((windowStart_eq_one _ k hM).mp e))
          (fun e => h1 (fun e2 => e ((windowStart_eq_one _ k hM).mpr e2)))
        have hnext : (windowStart env.b2_maxPolygonVertices k
            + (env.b2_maxPolygonVertices - 2)) % UINT_RANGE
            = windowStart env.b2_maxPolygonVertices (k + 1) := by
          rw [windowStart_succ, Nat.mod_eq_of_lt (by omega)]
        rw [windowPoints_specWindow env shapeList k hM hN hk2] at b3
        simp only [windowStart_eq_one _ k hM] at b3
        simp only [h3, if_false, b1, hnext,
          windowPoints_specWindow env shapeList k hM hN hk2]
        obtain ⟨s2, c1, c2, c3⟩ := ih (k + 1) s1
          (built ++ [specWindow shapeList env.b2_maxPolygonVertices k])
          (by rw [windowStart_succ]; omega) (fun e => absurd e (Nat.succ_ne_zero k))
          (fun _ => b2)
        have hsplit : windowCount shapeList.length env.b2_maxPolygonVertices - k
            = (windowCount shapeList.length env.b2_maxPolygonVertices - (k + 1)) + 1 := by
          omega
        refine ⟨s2, ?_, fun hK => absurd hk (not_lt.mpr hK), fun _ => ?_⟩
        · rw [c1, hsplit, List.range'_succ]
          simp
        · by_cases hlast : k + 1 < windowCount shapeList.length env.b2_maxPolygonVertices
          · obtain ⟨d1, d2⟩ := c3 hlast
            refine ⟨d1, ?_⟩
            rw [d2, if_neg (Nat.succ_ne_zero k), b3, b4, hsplit, List.range'_succ]
            simp
          · have e2 := c2 (not_lt.mp hlast)
            subst e2
            refine ⟨b2, ?_⟩
            have hz : windowCount shapeList.length env.b2_maxPolygonVertices - (k + 1) = 0 := by
              omega
            rw [b3, hsplit, hz]
            simp
    · rw [if_neg ho]
      have hK : windowCount shapeList.length env.b2_maxPolygonVertices ≤ k := by
        rw [← not_lt, hcount]
        omega
      refine ⟨s, ?_, fun _ => rfl, fun hk => absurd hk (not_lt.mpr hK)⟩
      rw [Nat.sub_eq_zero_of_le hK]
      simp

theorem setCollisionShapeLoop_wraps (env : Env) (shapeList : List Vector2f) (self : Nat)
    (hM : 3 ≤ env.b2_maxPolygonVertices % UINT_RANGE)
    (hN : UINT_RANGE + 2 ≤ shapeList.length) :
    ∀ (fuel offset : Nat) (s : GameState) (built : List (List b2Vec2)),
      offset < UINT_RANGE →
      setCollisionShapeLoop env shapeList self fuel offset s built = none := by
  intro fuel
  induction fuel with
  | zero => intro offset s built _; rfl
  | succ fuel ih =>
    intro offset s built ho
    rw [setCollisionShapeLoop, if_pos (by omega)]
    have h3 : ¬ windowLen env shapeList.length offset < 3 := by
      unfold windowLen
      split_ifs with h
      · rw [Nat.mod_eq_of_lt (lt_trans h (Nat.mod_lt _ (by decide)))]
        omega
      · omega
    simp only [h3, if_false]
    cases buildWindow env shapeList self offset (windowLen env shapeList.length offset) s with
    | none => rfl
    | some s2 => exact ih _ s2 _ (Nat.mod_lt _ (by decide))

theorem specWindow_length (shapeList : List Vector2f) (M k : Nat) (hM : 3 ≤ M)
    (hk : windowStart M k + 2 ≤ shapeList.length) :
    (specWindow shapeList M k).length = windowSize shapeList.length M k := by
  unfold specWindow windowSize windowEnd
  simp only [List.length_cons, List.length_map, List.length_drop, List.length_take]
  omega

theorem setCollisionShapeLoop_passes (env : Env) (shapeList : List Vector2f) (self : Nat)
    (hM : 3 ≤ env.b2_maxPolygonVertices % UINT_RANGE)
    (hN : UINT_RANGE + 2 ≤ shapeList.length) :
    ∀ (n offset : Nat) (s : GameState) (built : List (List b2Vec2)),
      offset < UINT_RANGE →
      (offset = 1 → ∀ h, (s.entities self).body = some h → ∃ b, s.world.bodies h = some b) →
      (offset ≠ 1 → ∃ h b, (s.entities self).body = some h ∧ s.world.bodies h = some b) →
      ∃ (offset2 : Nat) (s2 : GameState) (built2 : List (List b2Vec2)),
        built2.length = built.length + n ∧
        ∀ fuel, setCollisionShapeLoop env shapeList self (n + fuel) offset s built
          = setCollisionShapeLoop env shapeList self fuel offset2 s2 built2 := by
  intro n
  induction n with
  | zero =>
    intro offset s built _ _ _
    exact ⟨offset, s, built, rfl, fun fuel => by rw [Nat.zero_add]⟩
  | succ n ih =>
    intro offset s built ho h0 h1
    have h3 : ¬ windowLen env shapeList.length offset < 3 := by
      unfold windowLen
      split_ifs with h
      · rw [Nat.mod_eq_of_lt (lt_trans h (Nat.mod_lt _ (by decide)))]
        omega
      · omega
    obtain ⟨s3, b1, ⟨h, b, hb, hl⟩, _⟩ := buildWindow_spec env shapeList self offset
      (windowLen env shapeList.length offset) s h0 h1
    obtain ⟨offset2, s2, built2, c1, c2⟩ :=
      ih ((offset + (env.b2_maxPolygonVertices - 2)) % UINT_RANGE) s3
        (built ++ [windowPoints shapeList offset (windowLen env shapeList.length offset)])
        (Nat.mod_lt _ (by decide))
        (fun _ h2 e => by
          rw [hb] at e
          cases e
          exact ⟨b, hl⟩)
        (fun _ => ⟨h, b, hb, hl⟩)
    refine ⟨offset2, s2, built2, ?_, ?_⟩
    · rw [c1]
      simp
      omega
    · intro fuel
      have e : n + 1 + fuel = (n + fuel) + 1 := by omega
      rw [e, setCollisionShapeLoop, if_pos (by omega)]
      simp only [h3, if_false, b1]
      exact c2 fuel

/-- C9 as written fails: for the chain of `N = 2^32 + 2` points and `M = 8` the claim lets
the partitioning stop at window 715827883, the first that would have fewer than 3 points;
but the 32-bit counter `offset` stays below `N` and every pass finds `len = 8`, so after
715827884 passes the loop of `setCollisionShape` has handed 715827884 point lists to the
engine and goes on, and it returns for no bound on the number of passes. -/
theorem huge_chain_never_returns :
    hugeChain.length = 2 ^ 32 + 2 ∧ exampleEnv.b2_maxPolygonVertices = 8 ∧
    windowCount hugeChain.length exampleEnv.b2_maxPolygonVertices = 715827883 ∧
    windowSize hugeChain.length exampleEnv.b2_maxPolygonVertices 715827883 < 3 ∧
    (∃ (offset2 : Nat) (s2 : GameState) (built2 : List (List b2Vec2)),
      built2.length = 715827884 ∧
      ∀ fuel, setCollisionShapeLoop exampleEnv hugeChain 0 (715827884 + fuel) 1 emptyState []
        = setCollisionShapeLoop exampleEnv hugeChain 0 fuel offset2 s2 built2) ∧
    ¬ ∃ fuel, (setCollisionShapeTraced exampleEnv fuel emptyState 0 hugeChain).isSome = true := by
  have hlen : hugeChain.length = 2 ^ 32 + 2 := by
    unfold hugeChain
    rw [List.length_replicate]
    rfl
  have hM : 3 ≤ exampleEnv.b2_maxPolygonVertices % UINT_RANGE := by
    norm_num [exampleEnv, UINT_RANGE]
  have hN : UINT_RANGE + 2 ≤ hugeChain.length := by
    rw [hlen]
    norm_num [UINT_RANGE]
  have hrun : ∀ fuel, setCollisionShapeTraced exampleEnv fuel emptyState 0 hugeChain = none := by
    intro fuel
    unfold setCollisionShapeTraced
    exact setCollisionShapeLoop_wraps exampleEnv hugeChain 0 hM hN fuel 1 emptyState []
      (by norm_num [UINT_RANGE])
  refine ⟨hlen, rfl, ?_, ?_, ?_, ?_⟩
  · rw [hlen]
    norm_num [windowCount, exampleEnv]
  · rw [hlen]
    norm_num [windowSize, windowStart, exampleEnv]
  · obtain ⟨offset2, s2, built2, c1, c2⟩ :=
      setCollisionShapeLoop_passes exampleEnv hugeChain 0 hM hN 715827884 1 emptyState []
        (by norm_num [UINT_RANGE]) (fun _ h e => by simp [emptyState] at e)
        (fun e => absurd rfl e)
    exact ⟨offset2, s2, built2, by simpa using c1, c2⟩
  · rintro ⟨fuel, h⟩
    rw [hrun fuel] at h
    cases h

/-- C9, amended. For a chain `p[0..N-1]` and the limit M >= 3 with `N + M <= 2^32` (the
range of the `unsigned int` counter `offset`; the body reference of the entity null or
pointing to a body of the world), `setCollisionShape` returns and the polygons it hands
to the engine are, in order, the windows `k = 0, 1, ...`: the anchor `p[0]` followed by
`p[o], ..., p[min(N-1, o+M-2)]` with `o = 1 + k*(M-2)`.  Every window has between 3 and M
points; two consecutive windows share exactly one chain index; for N >= 3 every chain
index from 1 to N-1 lies in a window (and index 0 is the anchor of each); the windows stop
at the first one that would have fewer than 3 points; for N >= 3 the body of the entity
carries, newest first, exactly one fixture per window, made by the engine of that
window's point list; for N < 3 nothing is built and the state is unchanged. -/
theorem windows_fan_from_anchor (env : Env) (fuel : Nat) (s : GameState) (self : Nat)
    (shapeList : List Vector2f)
    (hM : 3 ≤ env.b2_maxPolygonVertices)
    (hR : shapeList.length + env.b2_maxPolygonVertices ≤ UINT_RANGE)
    (hfuel : shapeList.length < fuel)
    (hwf : ∀ h, (s.entities self).body = some h → ∃ b, s.world.bodies h = some b) :
    ∃ t K,
      setCollisionShapeTraced env fuel s self shapeList
        = some (t, (List.range K).map (specWindow shapeList env.b2_maxPolygonVertices)) ∧
      (∀ k, k < K →
        3 ≤ (specWindow shapeList env.b2_maxPolygonVertices k).length ∧
        (specWindow shapeList env.b2_maxPolygonVertices k).length
          ≤ env.b2_maxPolygonVertices ∧
        (specWindow shapeList env.b2_maxPolygonVertices k).length
          = windowEnd shapeList.length env.b2_maxPolygonVertices k
            - windowStart env.b2_maxPolygonVertices k + 2 ∧
        windowEnd shapeList.length env.b2_maxPolygonVertices k < shapeList.length) ∧
      (∀ k, k + 1 < K → ∀ i,
        (windowStart env.b2_maxPolygonVertices k ≤ i ∧
          i ≤ windowEnd shapeList.length env.b2_maxPolygonVertices k ∧
          windowStart env.b2_maxPolygonVertices (k + 1) ≤ i ∧
          i ≤ windowEnd shapeList.length env.b2_maxPolygonVertices (k + 1))
        ↔ i = windowStart env.b2_maxPolygonVertices (k + 1)) ∧
      (3 ≤ shapeList.length → ∀ i, 1 ≤ i → i < shapeList.length →
        ∃ k, k < K ∧ windowStart env.b2_maxPolygonVertices k ≤ i ∧
          i ≤ windowEnd shapeList.length env.b2_maxPolygonVertices k) ∧
      ((∀ k, k < K → 3 ≤ windowSize shapeList.length env.b2_maxPolygonVertices k) ∧
        windowSize shapeList.length env.b2_maxPolygonVertices K < 3) ∧
      (3 ≤ shapeList.length → 0 < K ∧ fixtureCount t self = K) ∧
      (shapeList.length < 3 → K = 0 ∧ t = s) ∧
      (3 ≤ shapeList.length →
        ∃ h b, (t.entities self).body = some h ∧ t.world.bodies h = some b ∧
          b.fixtureList
            = ((List.range K).map
                (fun k => windowFixture env (!(s.entities self).enablePhysics)
                  (specWindow shapeList env.b2_maxPolygonVertices k))).reverse) := by
  obtain ⟨t, h1, h2, h3⟩ :=
    setCollisionShapeTraced_closed env fuel s self shapeList hM hR hfuel hwf
  have hcount := fun k => lt_windowCount shapeList.length env.b2_maxPolygonVertices k hM
  refine ⟨t, windowCount shapeList.length env.b2_maxPolygonVertices, h1, ?_, ?_, ?_, ?_, ?_, ?_,
    ?_⟩
  · intro k hk
    have hk2 := (hcount k).mp hk
    rw [specWindow_length shapeList _ k hM hk2]
    unfold windowSize windowEnd
    omega
  · intro k hk i
    have hk2 := (hcount (k + 1)).mp hk
    have hs := windowStart_succ env.b2_maxPolygonVertices k
    unfold windowEnd
    omega
  · intro hN i hi1 hi2
    by_cases hi : i + 1 < shapeList.length
    · refine ⟨(i - 1) / (env.b2_maxPolygonVertices - 2), ?_, ?_, ?_⟩
      · rw [hcount]
        unfold windowStart
        have := Nat.div_mul_le_self (i - 1) (env.b2_maxPolygonVertices - 2)
        omega
      · unfold windowStart
        have := Nat.div_mul_le_self (i - 1) (env.b2_maxPolygonVertices - 2)
        omega
      · unfold windowEnd windowStart
        have := Nat.lt_div_mul_add (a := i - 1) (b := env.b2_maxPolygonVertices - 2)
          (by omega)
        omega
    · have hpos : 0 < windowCount shapeList.length env.b2_maxPolygonVertices := by
        rw [hcount]
        simp [windowStart]
        omega
      refine ⟨windowCount shapeList.length env.b2_maxPolygonVertices - 1, by omega, ?_, ?_⟩
      · have := (hcount (windowCount shapeList.length env.b2_maxPolygonVertices - 1)).mp
          (by omega)
        omega
      · have hnot := (hcount (windowCount shapeList.length env.b2_maxPolygonVertices)).not.mp
          (lt_irrefl _)
        have hs := windowStart_succ env.b2_maxPolygonVertices
          (windowCount shapeList.length env.b2_maxPolygonVertices - 1)
        rw [Nat.sub_add_cancel hpos] at hs
        unfold windowEnd
        omega
  · refine ⟨fun k hk => ?_, ?_⟩
    · have hk2 := (hcount k).mp hk
      unfold windowSize
      omega
    · have hnot := (hcount (windowCount shapeList.length env.b2_maxPolygonVertices)).not.mp
        (lt_irrefl _)
      unfold windowSize
      omega
  · intro hN
    have hpos : 0 < windowCount shapeList.length env.b2_maxPolygonVertices := by
      rw [hcount]
      simp [windowStart]
      omega
    exact ⟨hpos, (h3 hpos).2⟩
  · intro hN
    have hK : windowCount shapeList.length env.b2_maxPolygonVertices = 0 := by
      simp [windowCount, hN]
    exact ⟨hK, h2 hK⟩
  · intro hN
    have hpos : 0 < windowCount shapeList.length env.b2_maxPolygonVertices := by
      rw [hcount]
      simp [windowStart]
      omega
    obtain ⟨t2, g1, _, g3⟩ :=
      setCollisionShapeLoop_fixtures env shapeList self hM hR fuel 0 s []
        (by simp [windowStart]; omega) (fun _ => hwf) (fun e => absurd rfl e)
    have e0 : windowStart env.b2_maxPolygonVertices 0 = 1 := by simp [windowStart]
    rw [e0] at g1
    have et : t2 = t := by
      unfold setCollisionShapeTraced at h1
      rw [g1] at h1
      exact (Prod.mk.inj (Option.some.inj h1)).1
    subst et
    obtain ⟨⟨h, b, hb, hl⟩, hfix⟩ := g3 hpos
    refine ⟨h, b, hb, hl, ?_⟩
    have e1 : bodyFixtures t2 self = b.fixtureList := by
      simp [bodyFixtures, hb, hl]
    rw [← e1, hfix, List.range_eq_range']
    simp

/-- Witness of C9 (amended): the chain of nine points gives two windows, `p[0], p[1..7]` and
`p[0], p[7..8]`, and the body carries one fixture for each. -/
theorem windows_fan_from_anchor_witness :
    ∃ t K,
      setCollisionShapeTraced exampleEnv 10 emptyState 0 parabola
        = some (t, (List.range K).map (specWindow parabola exampleEnv.b2_maxPolygonVertices)) ∧
      (0 < K ∧ fixtureCount t 0 = K) ∧
      ∃ h b, (t.entities 0).body = some h ∧ t.world.bodies h = some b ∧
        b.fixtureList
          = ((List.range K).map
              (fun k => windowFixture exampleEnv (!(emptyState.entities 0).enablePhysics)
                (specWindow parabola exampleEnv.b2_maxPolygonVertices k))).reverse :=
  let ⟨t, K, h1, _, _, _, _, h6, _, h8⟩ :=
    windows_fan_from_anchor exampleEnv 10 emptyState 0 parabola (by decide) (by decide)
      (by decide) (fun h e => by simp [emptyState] at e)
  ⟨t, K, h1, h6 (by decide), h8 (by decide)⟩

theorem physicsInvariant_iff (s : GameState) (self : Nat) :
    physicsInvariant s self = true ↔
      ∀ h, (s.entities self).body = some h →
        ∃ b, s.world.bodies h = some b ∧
          (∀ f ∈ b.fixtureList, f.isSensor = !(s.entities self).enablePhysics) ∧
          b.m_type = (if (s.entities self).staticPhysics then b2BodyType.b2_kinematicBody
            else b2BodyType.b2_dynamicBody) := by
  unfold physicsInvariant
  cases hb : (s.entities self).body with
  | none => simp
  | some h =>
    cases hl : s.world.bodies h with
    | none => simp [hl]
    | some b => simp [hl, List.all_eq_true]

theorem createBody_invariant (s : GameState) (self : Nat) (shape : b2Shape)
    (hinv : physicsInvariant s self = true) :
    ∃ t, createBody s self shape = some t ∧ physicsInvariant t self = true ∧
      (∀ h, (s.entities self).body = some h →
        (t.entities self).body = some h ∧
        ∃ b, t.world.bodies h = some b ∧ b.fixtureList.length = 1) := by
  rw [physicsInvariant_iff] at hinv
  unfold createBody
  cases hb : (s.entities self).body with
  | some h =>
    obtain ⟨b, hlive, _, htype⟩ := hinv h hb
    simp only [hlive]
    refine ⟨_, rfl, ?_, ?_⟩
    · rw [physicsInvariant_iff]
      intro h2 e
      have e2 : h2 = h := by
        have e3 : (s.entities self).body = some h2 := e
        rw [hb] at e3
        exact (Option.some.inj e3).symm
      subst e2
      refine ⟨_, setBody_bodies_self _ _ _, ?_, htype⟩
      intro f hf
      simp only [b2Body.CreateFixture, destroyFixtures_eq, List.mem_singleton] at hf
      subst hf
      rfl
    · intro h2 e
      cases e
      exact ⟨hb, _, setBody_bodies_self _ _ _, by simp [b2Body.CreateFixture,
        destroyFixtures_eq]⟩
  | none =>
    simp only [b2World.CreateBody, GameState.setEntity, b2World.setBody, if_true]
    refine ⟨_, rfl, ?_, ?_⟩
    · rw [physicsInvariant_iff]
      intro h2 e
      simp only [if_true] at e
      simp only [Option.some.injEq] at e
      subst e
      simp [b2Body.CreateFixture]
    · intro h2 e
      cases e

theorem setCollisionPhysics_invariant (s : GameState) (self : Nat)
    (enablePhysics staticPhysics : Bool) (hinv : physicsInvariant s self = true) :
    ∃ t, setCollisionPhysics s self enablePhysics staticPhysics = some t ∧
      physicsInvariant t self = true := by
  rw [physicsInvariant_iff] at hinv
  unfold setCollisionPhysics
  cases hb : (s.entities self).body with
  | none =>
    simp only [GameState.setEntity, if_true, hb]
    refine ⟨_, rfl, ?_⟩
    rw [physicsInvariant_iff]
    intro h2 e2
    simp only [if_true] at e2
    cases e2
  | some h =>
    obtain ⟨b, hlive, _, _⟩ := hinv h hb
    simp only [GameState.setEntity, if_true, hb, hlive]
    refine ⟨_, rfl, ?_⟩
    rw [physicsInvariant_iff]
    intro h2 e2
    simp only [if_true] at e2
    cases e2
    refine ⟨_, setBody_bodies_self _ _ _, ?_, ?_⟩
    · intro f hf
      simp only [b2Body.SetType, List.mem_map] at hf
      obtain ⟨g, _, hg⟩ := hf
      subst hg
      simp [b2Fixture.SetSensor]
    · simp [b2Body.SetType]

theorem destroy_invariant (s : GameState) (self : Nat)
    (hinv : physicsInvariant s self = true) : physicsInvariant (destroy s self) self = true := by
  rw [physicsInvariant_iff] at hinv ⊢
  intro h e
  simp only [destroy, GameState.setEntity, if_true] at e ⊢
  exact hinv h e

theorem buildWindow_invariant (env : Env) (shapeList : List Vector2f)
    (self offset len : Nat) (s t : GameState) (hinv : physicsInvariant s self = true)
    (hrun : buildWindow env shapeList self offset len s = some t) :
    physicsInvariant t self = true := by
  unfold buildWindow at hrun
  have hs1 : ∃ s1 : GameState, (match env.polygonSet (windowPoints shapeList offset len) with
      | some _ => s
      | none => destroy s self) = s1 ∧ physicsInvariant s1 self = true := by
    cases env.polygonSet (windowPoints shapeList offset len) with
    | some vs => exact ⟨s, rfl, hinv⟩
    | none => exact ⟨destroy s self, rfl, destroy_invariant s self hinv⟩
  obtain ⟨s1, e1, hinv1⟩ := hs1
  simp only [e1] at hrun
  by_cases ho : offset = 1
  · simp only [ho, if_true] at hrun
    obtain ⟨t2, c1, c2, _⟩ := createBody_invariant s1 self _ hinv1
    rw [c1] at hrun
    cases hrun
    exact c2
  · simp only [ho, if_false] at hrun
    cases hb : (s1.entities self).body with
    | none => simp [hb] at hrun
    | some h =>
      obtain ⟨b, hlive, hsens, htype⟩ := (physicsInvariant_iff s1 self).mp hinv1 h hb
      simp only [hb, hlive, Option.some.injEq] at hrun
      subst hrun
      rw [physicsInvariant_iff]
      intro h2 e2
      have e3 : h2 = h := by
        have e4 : (s1.entities self).body = some h2 := e2
        rw [hb] at e4
        exact (Option.some.inj e4).symm
      subst e3
      refine ⟨_, setBody_bodies_self _ _ _, ?_, htype⟩
      intro f hf
      simp only [b2Body.CreateFixture, List.mem_cons] at hf
      rcases hf with hf | hf
      · subst hf
        rfl
      · exact hsens f hf

theorem setCollisionShapeLoop_invariant (env : Env) (shapeList : List Vector2f) (self : Nat) :
    ∀ (fuel offset : Nat) (s : GameState) (built : List (List b2Vec2))
      (r : GameState × List (List b2Vec2)),
      physicsInvariant s self = true →
      setCollisionShapeLoop env shapeList self fuel offset s built = some r →
      physicsInvariant r.1 self = true := by
  intro fuel
  induction fuel with
  | zero =>
    intro offset s built r _ hrun
    simp [setCollisionShapeLoop] at hrun
  | succ fuel ih =>
    intro offset s built r hinv hrun
    rw [setCollisionShapeLoop] at hrun
    by_cases ho : offset < shapeList.length
    · rw [if_pos ho] at hrun
      by_cases h3 : windowLen env shapeList.length offset < 3
      · simp only [h3, if_true, Option.some.injEq] at hrun
        subst hrun
        exact hinv
      · simp only [h3, if_false] at hrun
        cases hb : buildWindow env shapeList self offset
            (windowLen env shapeList.length offset) s with
        | none => simp [hb] at hrun
        | some s2 =>
          simp only [hb] at hrun
          exact ih _ s2 _ r (buildWindow_invariant env shapeList self offset _ s s2 hinv hb)
            hrun
    · rw [if_neg ho, Option.some.injEq] at hrun
      subst hrun
      exact hinv

theorem newCollisionable_invariant (s : GameState) (self : Nat) :
    physicsInvariant (newCollisionable s self) self = true := by
  simp [physicsInvariant, newCollisionable, GameState.setEntity]

/-- C10. If the invariant holds for an entity (its body, when it has one, is in the world,
each fixture is a sensor exactly when `enablePhysics` is off, and the body is kinematic
when `staticPhysics` is on and dynamic otherwise), then it holds after `createBody`,
`setCollisionRadius`, `setCollisionBox`, `setCollisionShape` and `setCollisionPhysics`,
and it holds after each of the three constructors; `setCollisionRadius` and
`setCollisionBox` on an entity that has a body keep that body and leave it exactly one
fixture. -/
theorem physics_invariant_kept (env : Env) (s : GameState) (self : Nat)
    (hinv : physicsInvariant s self = true) :
    (∀ shape, ∃ t, createBody s self shape = some t ∧ physicsInvariant t self = true) ∧
    (∀ radius, ∃ t, setCollisionRadius s self radius = some t ∧
      physicsInvariant t self = true) ∧
    (∀ boxSize boxOrigin, ∃ t, setCollisionBox s self boxSize boxOrigin = some t ∧
      physicsInvariant t self = true) ∧
    (∀ fuel shapeList t, setCollisionShape env fuel s self shapeList = some t →
      physicsInvariant t self = true) ∧
    (∀ fuel (shapeList : List Vector2f), 3 ≤ env.b2_maxPolygonVertices →
      shapeList.length + env.b2_maxPolygonVertices ≤ UINT_RANGE → shapeList.length < fuel →
      ∃ t, setCollisionShape env fuel s self shapeList = some t) ∧
    (∀ enablePhysics staticPhysics,
      ∃ t, setCollisionPhysics s self enablePhysics staticPhysics = some t ∧
        physicsInvariant t self = true) ∧
    (∀ radius, ∃ t, Collisionable.ofRadius s self radius = some t ∧
      physicsInvariant t self = true) ∧
    (∀ boxSize boxOrigin, ∃ t, Collisionable.ofBox s self boxSize boxOrigin = some t ∧
      physicsInvariant t self = true) ∧
    (∀ fuel shape t, Collisionable.ofShape env fuel s self shape = some t →
      physicsInvariant t self = true) ∧
    (∀ h, (s.entities self).body = some h →
      (∀ radius, ∃ t b, setCollisionRadius s self radius = some t ∧
        (t.entities self).body = some h ∧ t.world.bodies h = some b ∧
        b.fixtureList.length = 1) ∧
      (∀ boxSize boxOrigin, ∃ t b, setCollisionBox s self boxSize boxOrigin = some t ∧
        (t.entities self).body = some h ∧ t.world.bodies h = some b ∧
        b.fixtureList.length = 1)) := by
  have hwf : ∀ h, (s.entities self).body = some h → ∃ b, s.world.bodies h = some b := by
    intro h e
    obtain ⟨b, hb, _⟩ := (physicsInvariant_iff s self).mp hinv h e
    exact ⟨b, hb⟩
  have hshape : ∀ (s0 : GameState), physicsInvariant s0 self = true →
      ∀ fuel shapeList t, setCollisionShape env fuel s0 self shapeList = some t →
        physicsInvariant t self = true := by
    intro s0 h0 fuel shapeList t hrun
    unfold setCollisionShape setCollisionShapeTraced at hrun
    cases hl : setCollisionShapeLoop env shapeList self fuel 1 s0 [] with
    | none => simp [hl] at hrun
    | some r =>
      simp only [hl, Option.map_some', Option.some.injEq] at hrun
      subst hrun
      exact setCollisionShapeLoop_invariant env shapeList self fuel 1 s0 [] r h0 hl
  have hcreate : ∀ (s0 : GameState), physicsInvariant s0 self = true →
      ∀ shape, ∃ t, createBody s0 self shape = some t ∧ physicsInvariant t self = true := by
    intro s0 h0 shape
    obtain ⟨t, c1, c2, _⟩ := createBody_invariant s0 self shape h0
    exact ⟨t, c1, c2⟩
  have hkeep : ∀ shape h, (s.entities self).body = some h →
      ∃ t b, createBody s self shape = some t ∧ (t.entities self).body = some h ∧
        t.world.bodies h = some b ∧ b.fixtureList.length = 1 := by
    intro shape h e
    obtain ⟨t, c1, _, c3⟩ := createBody_invariant s self shape hinv
    obtain ⟨d1, b, d2, d3⟩ := c3 h e
    exact ⟨t, b, c1, d1, d2, d3⟩
  refine ⟨hcreate s hinv, fun _ => hcreate s hinv _, fun _ _ => hcreate s hinv _,
    hshape s hinv, ?_, fun e st => setCollisionPhysics_invariant s self e st hinv,
    fun _ => hcreate _ (newCollisionable_invariant s self) _,
    fun _ _ => hcreate _ (newCollisionable_invariant s self) _,
    hshape _ (newCollisionable_invariant s self),
    fun h e => ⟨fun _ => hkeep _ h e, fun _ _ => hkeep _ h e⟩⟩
  intro fuel shapeList hM hR hfuel
  obtain ⟨t, h1, _⟩ := setCollisionShapeTraced_closed env fuel s self shapeList hM hR hfuel hwf
  exact ⟨t, by simp [setCollisionShape, h1]⟩

/-- Witness of C10: entity 1 of the example state, which owns body 1 with two fixtures;
`setCollisionRadius` leaves one fixture on body 1. -/
theorem physics_invariant_kept_witness :
    physicsInvariant (exampleState [] []) 1 = true ∧
    (∃ t b, setCollisionRadius (exampleState [] []) 1 30 = some t ∧
      (t.entities 1).body = some 1 ∧ t.world.bodies 1 = some b ∧ b.fixtureList.length = 1) ∧
    (∃ t, setCollisionPhysics (exampleState [] []) 1 true true = some t ∧
      physicsInvariant t 1 = true) :=
  ⟨by decide,
    ((physics_invariant_kept exampleEnv (exampleState [] []) 1 (by decide)).2.2.2.2.2.2.2.2.2
      1 (by decide)).1 30,
    (physics_invariant_kept exampleEnv (exampleState [] []) 1 (by decide)).2.2.2.2.2.1 true
      true⟩

end SeriousProton
